import Mathlib

set_option maxHeartbeats 1000000

/-!
Shallow embedding of the gotham-fan-hub aggregation pipeline.

The repository holds several revisions of one Netlify serverless handler that
fetches roster / schedule / stats / standings / news data from upstream HTTP
APIs, normalizes each category, and substitutes a static fallback snapshot on
failure.  We embed the three revisions that the claims point at:

  * namespace `V1` — the first revision inside
    `netlify/functions/get-gotham-data.js` (lines 1-229): roster, schedule,
    multi-category stats, standings, news normalizers plus the handler.
  * namespace `P0` — `unnamed/part_000`: the enrichment-aware roster
    normalizer, the locale-formatting schedule normalizer, general team stats,
    standings, and a handler whose emptiness check is commented out.
  * namespace `P1` — `unnamed/part_001`: the enrichment-aware roster
    normalizer, the `home/away.shortName` schedule normalizer, the combined
    stats normalizer and the standings normalizer.

Modelling conventions, used uniformly below:

  * JSON values are the inductive `JsonV`; a JavaScript `undefined` (an absent
    object field) is `Option.none` on the Lean side, `null` is `JsonV.jnull`.
  * Upstream payloads are embedded as structures whose every field is an
    `Option`, since any field may be missing from the wire data; a guard such
    as `!apiData || !apiData.players || !Array.isArray(apiData.players)` is
    collapsed into a single `Option` on the guarded component.
  * JavaScript numbers are embedded as `Rat` (the claims never exercise
    NaN/Infinity arithmetic; where the source could produce NaN we note it).
  * A normalizer that can throw a `TypeError` (property access on
    `undefined`) is embedded in `Except Unit`; `Except.error ()` is the
    thrown exception, which the calling fetch wrapper converts to fallback.
  * `array.map(f)` followed by `.filter(x => x !== null)` is embedded as
    `List.filterMap`; an effectful `map`/`filter` (one whose callback can
    throw) is `mapE`/`filterE`, which abort at the first error exactly as a
    thrown exception aborts the whole `Array.prototype.map`/`filter` call.
-/

inductive JsonV where
  | jnull : JsonV
  | jstr : String → JsonV
  | jnum : Rat → JsonV
  | jbool : Bool → JsonV
  | jarr : List JsonV → JsonV
  | jobj : List (String × JsonV) → JsonV

/-- `x === null` discriminator. -/
def JsonV.isNull : JsonV → Bool
  | .jnull => true
  | _ => false

/-- Object field lookup, `obj[k]`; `none` is JavaScript `undefined`. -/
def jGet : JsonV → String → Option JsonV
  | .jobj fs, k => (fs.find? (fun p => p.1 == k)).map (·.2)
  | _, _ => none

/-- JavaScript truthiness of a possibly-absent string (`undefined`, `null`
and `""` are falsy). -/
def strTruthy : Option String → Bool
  | none => false
  | some s => !s.isEmpty

/-- JavaScript truthiness of a possibly-absent number (`0` is falsy). -/
def numTruthy : Option Rat → Bool
  | none => false
  | some q => q != 0

/-- Rendering of a number inside a template literal.  Integers render as in
JavaScript; the decimal rendering of non-integral rationals is abstracted to
`num/den` (no claim exercises it). -/
def ratShow (q : Rat) : String :=
  if q.den = 1 then
    (if q.num < 0 then "-" ++ toString q.num.natAbs else toString q.num.natAbs)
  else toString q.num ++ "/" ++ toString q.den

/-- `String(x)` / template-literal interpolation for a defined value. -/
def jsShow : JsonV → String
  | .jnull => "null"
  | .jstr s => s
  | .jnum q => ratShow q
  | .jbool b => if b then "true" else "false"
  | .jarr _ => ""
  | .jobj _ => ""

/-- Template-literal interpolation where the value may be `undefined`
(JavaScript renders the string `undefined`). -/
def jsShowU : Option JsonV → String
  | none => "undefined"
  | some v => jsShow v

/-- Effectful list map: a thrown exception in the callback aborts the whole
`Array.prototype.map`. -/
def mapE (f : α → Except Unit β) : List α → Except Unit (List β)
  | [] => .ok []
  | x :: xs => do
    let y ← f x
    let ys ← mapE f xs
    pure (y :: ys)

/-- Effectful list filter: a thrown exception in the predicate aborts the
whole `Array.prototype.filter`. -/
def filterE (p : α → Except Unit Bool) : List α → Except Unit (List α)
  | [] => .ok []
  | x :: xs => do
    let b ← p x
    let rest ← filterE p xs
    pure (if b then x :: rest else rest)

/-- Split a character list at the first occurrence of a (nonempty) pattern:
returns the part before the occurrence and the part after it. -/
def splitFirst (pat : List Char) : List Char → Option (List Char × List Char)
  | [] => none
  | c :: rest =>
    if pat.isPrefixOf (c :: rest) then some ([], (c :: rest).drop pat.length)
    else match splitFirst pat rest with
      | some (a, b) => some (c :: a, b)
      | none => none

/-- `String.prototype.replace` with a string pattern: replaces only the FIRST
occurrence of `pat` by `rep`. -/
def jsReplace (s pat rep : String) : String :=
  match splitFirst pat.data s.data with
  | some (a, b) => ⟨a ++ rep.data ++ b⟩
  | none => s

/-- `s.split(sep)[0]`: the prefix of `s` before the first occurrence of
`sep` (the whole string when `sep` does not occur). -/
def splitHead (s sep : String) : String :=
  match splitFirst sep.data s.data with
  | some (a, _) => ⟨a⟩
  | none => s

/-- `String.prototype.trim`: strip whitespace from both ends. -/
def jsTrim (s : String) : String :=
  ⟨((s.data.dropWhile Char.isWhitespace).reverse.dropWhile Char.isWhitespace).reverse⟩

/-- `String.prototype.toLowerCase` (character-wise lowering). -/
def jsToLower (s : String) : String :=
  ⟨s.data.map Char.toLower⟩

/-- `s.charAt(0).toUpperCase() + s.slice(1)`. -/
def capFirst (s : String) : String :=
  match s.data with
  | [] => ""
  | c :: cs => ⟨c.toUpper :: cs⟩

/-- Template-literal interpolation of a possibly-absent string. -/
def strShowU : Option String → String
  | none => "undefined"
  | some s => s

/-- An upstream object of which the source only reads `name`
(teams, venues, broadcast networks, position info). -/
structure NamedObj where
  name : Option String

/-- The fixed position lookup
`{ 'Goalkeeper': 'GK', 'Defender': 'DF', 'Midfielder': 'MF', 'Forward': 'FW' }`,
textually identical in every revision of the roster normalizer. -/
def posMap (s : String) : Option String :=
  if s = "Goalkeeper" then some "GK"
  else if s = "Defender" then some "DF"
  else if s = "Midfielder" then some "MF"
  else if s = "Forward" then some "FW"
  else none

/-- The role-collapsing chain
`label.replace('Attacking Midfielder','Midfielder').replace('Defensive Midfielder','Midfielder')`,
textually identical in every revision of the roster normalizer. -/
def collapseRole (s : String) : String :=
  jsReplace (jsReplace s "Attacking Midfielder" "Midfielder") "Defensive Midfielder" "Midfielder"

/-- `Array.prototype.find` with a predicate that can throw. -/
def findE (p : α → Except Unit Bool) : List α → Except Unit (Option α)
  | [] => .ok none
  | x :: xs => do
    let b ← p x
    if b then pure (some x) else findE p xs

namespace P1

/-! ### `unnamed/part_001` — enrichment-aware roster, schedule, standings -/

/-- One entry of the upstream `players` array.  Every field may be absent. -/
structure RawPlayer where
  playerStatus : Option String
  mediaFirstName : Option String
  mediaLastName : Option String
  shirtName : Option String
  shortName : Option String
  roleLabel : Option String
  bibNumber : Option Rat
  nationality : Option String

/-- One row of the Google-sheet CSV, as stored in the enrichment index. -/
structure EnrichedRec where
  headshotUrl : Option String
  playerPageUrl : Option String

/-- The enrichment index built by `parseCsv`: a name-keyed object. -/
def EnrichmentIndex := List (String × EnrichedRec)

/-- `enrichmentData[key]` (`none` is `undefined`). -/
def idxGet (idx : EnrichmentIndex) (k : String) : Option EnrichedRec :=
  (idx.find? (fun p => p.1 == k)).map (·.2)

/-- Unicode combining marks `̀`–`ͯ`, the range the source strips. -/
def isCombining (c : Char) : Bool :=
  0x300 ≤ c.toNat && c.toNat ≤ 0x36F

/-- `normalizeName`: trim, lower-case, strip combining marks.  The
`normalize("NFD")` decomposition step is modelled as the identity (it only
rewrites pre-composed accented characters into base + combining mark, and the
combining marks are then stripped by the filter). -/
def normalizeName : Option String → String
  | none => ""
  | some s => ⟨(jsToLower (jsTrim s)).data.filter (fun c => !isCombining c)⟩

/-- Canonical roster entry produced by the normalizer. -/
structure RosterEntry where
  name : String
  pos : String
  num : JsonV
  bio : String
  headshot : Option String
  pageUrl : Option String

/-- The `for (const key of potentialKeys)` loop: first key present in the
index wins; no match leaves `enriched = {}`. -/
def findEnriched (enrichmentData : EnrichmentIndex) : List String → EnrichedRec
  | [] => ⟨none, none⟩
  | k :: ks =>
    match idxGet enrichmentData k with
    | some r => r
    | none => findEnriched enrichmentData ks

/-- The body of the `activePlayers.map(...)` callback.  `none` is the `null`
produced either by the missing-name guard or by the per-entry `catch`
(reading `.replace` off an absent `roleLabel` throws, and the `try` converts
that to `null`). -/
def processPlayer (enrichmentData : EnrichmentIndex) (player : RawPlayer) :
    Option RosterEntry :=
  if !(strTruthy player.mediaFirstName && strTruthy player.mediaLastName) then none
  else
    match player.roleLabel with
    | none => none
    | some role =>
      let potentialKeys :=
        ([normalizeName player.shirtName, normalizeName player.shortName,
          normalizeName player.mediaLastName]).filter (fun k => !k.isEmpty)
      let enriched := findEnriched enrichmentData potentialKeys
      let position := collapseRole role
      some
        { name := (player.mediaFirstName.getD "") ++ " " ++ (player.mediaLastName.getD "")
          pos := (posMap position).getD "N/A"
          num :=
            match player.bibNumber with
            | some b => if b ≠ 0 then JsonV.jnum b else JsonV.jstr "N/A"
            | none => JsonV.jstr "N/A"
          bio := position ++ " from "
            ++ (if strTruthy player.nationality then player.nationality.getD "" else "N/A")
          headshot := if strTruthy enriched.headshotUrl then enriched.headshotUrl else none
          pageUrl := if strTruthy enriched.playerPageUrl then enriched.playerPageUrl else none }

/-- `processNWSLRosterData` of `part_001` (identical in `part_000`): guard the
`players` array, keep `playerStatus === 'Active'`, map each player through the
per-entry normalizer and drop the `null`s. -/
def processNWSLRosterData (apiData : Option (List RawPlayer))
    (enrichmentData : EnrichmentIndex) : List RosterEntry :=
  match apiData with
  | none => []
  | some players =>
    let activePlayers := players.filter (fun p => p.playerStatus == some "Active")
    activePlayers.filterMap (processPlayer enrichmentData)

/-- A team object inside a schedule match. -/
structure RawTeam where
  shortName : Option String

structure RawBroadcasters where
  broadcasterNational1 : Option String
  broadcasterNational2 : Option String
  broadcasterNational3 : Option String

structure RawEditorial where
  broadcasters : Option RawBroadcasters

/-- One entry of the upstream `matches` array. -/
structure RawMatch where
  home : Option RawTeam
  away : Option RawTeam
  editorial : Option RawEditorial
  matchDateUtc : Option String
  stadiumName : Option String

structure ScheduleEntry where
  opponent : Option String
  date : Option String
  location : Option String
  broadcast : String
  home : Bool

/-- The filter predicate
`match.home.shortName === "Gotham FC" || match.away.shortName === "Gotham FC"`:
reading `.shortName` off an absent `home` (or, when the first disjunct is
false, an absent `away`) throws. -/
def isGothamMatch (m : RawMatch) : Except Unit Bool :=
  match m.home with
  | none => .error ()
  | some h =>
    if h.shortName == some "Gotham FC" then .ok true
    else
      match m.away with
      | none => .error ()
      | some a => .ok (a.shortName == some "Gotham FC")

/-- The `gothamMatches.map(...)` callback; property reads off absent `away`,
`editorial` or `broadcasters` throw. -/
def toScheduleEntry (m : RawMatch) : Except Unit ScheduleEntry := do
  match m.home with
  | none => .error ()
  | some h =>
    let isHomeGame := h.shortName == some "Gotham FC"
    let opponent ←
      (if isHomeGame then
        match m.away with
        | none => Except.error ()
        | some a => Except.ok a.shortName
      else Except.ok h.shortName)
    match m.editorial with
    | none => .error ()
    | some ed =>
      match ed.broadcasters with
      | none => .error ()
      | some bc =>
        let networks :=
          (if strTruthy bc.broadcasterNational1 then
            [splitHead (bc.broadcasterNational1.getD "") "|"] else [])
          ++ (if strTruthy bc.broadcasterNational2 then
            [splitHead (bc.broadcasterNational2.getD "") "|"] else [])
          ++ (if strTruthy bc.broadcasterNational3 then
            [splitHead (bc.broadcasterNational3.getD "") "|"] else [])
        pure
          { opponent := opponent
            date := m.matchDateUtc
            location := m.stadiumName
            broadcast := if networks.isEmpty then "TBD" else String.intercalate ", " networks
            home := isHomeGame }

/-- `processScheduleData` of `part_001`: guard the `matches` array, filter to
Gotham matches, map to schedule entries.  A thrown `TypeError` anywhere in the
filter or the map escapes the normalizer (there is no `try` in this revision)
and is only caught by the fetch wrapper, which substitutes the fallback. -/
def processScheduleData (apiData : Option (List RawMatch)) :
    Except Unit (List ScheduleEntry) :=
  match apiData with
  | none => .ok []
  | some matchList => do
    let gothamMatches ← filterE isGothamMatch matchList
    mapE toScheduleEntry gothamMatches

/-- One `{statsId, statsValue}` row of a standings team. -/
structure StatRow where
  statsId : Option String
  statsValue : Option JsonV

structure StandTeam where
  teamId : Option String
  stats : Option (List StatRow)

/-- One table of the `standings` array (the source only reads `teams`). -/
structure StandTable where
  teams : Option (List StandTeam)

structure StandingsRec where
  rank : JsonV
  points : JsonV
  record : String

def GOTHAM_TEAM_ID : String := "nwsl::Football_Team::c83f2ca05aa84c738b5373f0d2a31b39"

/-- `gothamData.stats.find(s => s.statsId === id)?.statsValue`. -/
def getStatRow (stats : List StatRow) (id : String) : Option JsonV :=
  (stats.find? (fun s => s.statsId == some id)).bind (·.statsValue)

/-- The chain `apiData?.standings?.[0]?.teams` followed by the
`find(team => team.teamId === GOTHAM_ID)`; any absence yields `undefined`
(the optional chaining never throws). -/
def lookupGothamRow (apiData : Option (List StandTable)) : Option StandTeam :=
  match apiData with
  | none => none
  | some [] => none
  | some (t :: _) =>
    match t.teams with
    | none => none
    | some teams => teams.find? (fun team => team.teamId == some GOTHAM_TEAM_ID)

/-- `processStandingsData` of `part_001` (identical in `part_000`): find the
configured team's row, read the five `statsId` values, and return `null`
whenever the row, its `stats`, or any of the five values is absent. -/
def processStandingsData (apiData : Option (List StandTable)) : Option StandingsRec :=
  match lookupGothamRow apiData with
  | none => none
  | some gothamData =>
    match gothamData.stats with
    | none => none
    | some stats =>
      match getStatRow stats "rank", getStatRow stats "points", getStatRow stats "win",
        getStatRow stats "lose", getStatRow stats "draw" with
      | some r, some p, some w, some l, some d =>
        some { rank := r, points := p,
               record := jsShow w ++ "-" ++ jsShow l ++ "-" ++ jsShow d }
      | _, _, _, _, _ => none

end P1

namespace V1

/-! ### `netlify/functions/get-gotham-data.js`, first revision (lines 1-229) -/

/-- `playerEntry.person` of the `/roster` payload. -/
structure Person where
  firstName : Option String
  lastName : Option String
  birthplace : Option String

/-- One entry of `apiData.data.roster`. -/
structure RosterItem where
  person : Option Person
  position : Option NamedObj
  jerseyNumber : Option Rat

structure RosterEntry where
  name : String
  pos : String
  num : JsonV
  bio : String

/-- The `players.map(...)` callback of this revision.  There is no per-entry
`try`: reading `positionInfo.name.replace` off an absent `name`, or
`player.firstName` off an absent `person`, throws out of the whole map. -/
def toRosterEntry (playerEntry : RosterItem) : Except Unit RosterEntry := do
  let position ←
    (match playerEntry.position with
    | none => Except.ok "N/A"
    | some positionInfo =>
      match positionInfo.name with
      | none => Except.error ()
      | some nm => Except.ok (collapseRole nm))
  match playerEntry.person with
  | none => .error ()
  | some player =>
    pure
      { name := strShowU player.firstName ++ " " ++ strShowU player.lastName
        pos := (posMap position).getD "N/A"
        num :=
          match playerEntry.jerseyNumber with
          | some b => if b ≠ 0 then JsonV.jnum b else JsonV.jstr "N/A"
          | none => JsonV.jstr "N/A"
        bio := position ++ " from "
          ++ (if strTruthy player.birthplace then player.birthplace.getD "" else "N/A") }

/-- `processNWSLRosterData`, first revision: guard `apiData.data.roster`, then
map every entry (no active-status filter, no skipping). -/
def processNWSLRosterData (apiData : Option (List RosterItem)) :
    Except Unit (List RosterEntry) :=
  match apiData with
  | none => .ok []
  | some players => mapE toRosterEntry players

/-- One `{network: {name}}` broadcast slot. -/
structure BroadcastSlot where
  network : Option NamedObj

/-- One entry of `apiData.data.matches` in this revision. -/
structure MatchItem where
  homeTeam : Option NamedObj
  awayTeam : Option NamedObj
  matchDate : Option String
  venue : Option NamedObj
  broadcasts : Option (List BroadcastSlot)

structure SchedEntry where
  opponent : Option String
  date : Option String
  location : Option String
  broadcast : String
  home : Bool

/-- Filter predicate
`match.homeTeam.name === "NJ/NY Gotham FC" || match.awayTeam.name === ...`. -/
def isGothamMatchItem (m : MatchItem) : Except Unit Bool :=
  match m.homeTeam with
  | none => .error ()
  | some h =>
    if h.name == some "NJ/NY Gotham FC" then .ok true
    else
      match m.awayTeam with
      | none => .error ()
      | some a => .ok (a.name == some "NJ/NY Gotham FC")

/-- The `gothamMatches.map(...)` callback.  `Array.prototype.join` renders an
`undefined` element as the empty string. -/
def toSchedEntry (m : MatchItem) : Except Unit SchedEntry := do
  match m.homeTeam with
  | none => .error ()
  | some h =>
    let isHomeGame := h.name == some "NJ/NY Gotham FC"
    let opponent ←
      (if isHomeGame then
        match m.awayTeam with
        | none => Except.error ()
        | some a => Except.ok a.name
      else Except.ok h.name)
    match m.venue with
    | none => .error ()
    | some v =>
      let broadcast ←
        (match m.broadcasts with
        | none => Except.ok "TBD"
        | some bl =>
          if bl.length > 0 then do
            let names ← mapE
              (fun b =>
                match b.network with
                | none => Except.error ()
                | some n => Except.ok (n.name.getD "")) bl
            pure (String.intercalate ", " names)
          else pure "TBD")
      pure
        { opponent := opponent
          date := m.matchDate
          location := v.name
          broadcast := broadcast
          home := isHomeGame }

/-- `processScheduleData`, first revision. -/
def processScheduleData (apiData : Option (List MatchItem)) :
    Except Unit (List SchedEntry) :=
  match apiData with
  | none => .ok []
  | some matchList => do
    let gothamMatches ← filterE isGothamMatchItem matchList
    mapE toSchedEntry gothamMatches

/-- One person inside a stat's `persons` leader array. -/
structure PersonStat where
  firstName : Option String
  lastName : Option String
  value : Option JsonV

/-- `stat.team`, holding the team-level numeric value. -/
structure TeamVal where
  value : Option Rat

/-- One entry of `data.data.stats`. -/
structure NamedStat where
  name : Option String
  persons : Option (List PersonStat)
  team : Option TeamVal

structure StatsBody where
  stats : Option (List NamedStat)

/-- One decoded stats response: the source reads `data.data.stats`. -/
structure StatsDoc where
  data : Option StatsBody

/-- One element of the `statsResponses` array: `{category, data}`. -/
structure StatsResp where
  category : String
  data : Option StatsDoc

structure Leader where
  name : String
  total : Option JsonV

/-- A `{ total: ... }` wrapper. -/
structure TotalVal where
  total : Option JsonV

/-- `statsResponses.find(r => r.category === c)?.data`. -/
def findCat (rs : List StatsResp) (c : String) : Option StatsDoc :=
  (rs.find? (fun r => r.category == c)).bind (·.data)

/-- The chain guarded by `!data || !data.data || !data.data.stats`, then
`data.data.stats.find(s => s.name === statName)`. -/
def getStat (data : Option StatsDoc) (statName : String) : Option NamedStat :=
  match data with
  | none => none
  | some d =>
    match d.data with
    | none => none
    | some b =>
      match b.stats with
      | none => none
      | some stats => stats.find? (fun s => s.name == some statName)

/-- `getStatLeaders`: the top-`count` persons of the named stat, or `[]` when
the stat, its `persons`, or the whole chain is absent. -/
def getStatLeaders (data : Option StatsDoc) (statName : String) (count : Nat := 3) :
    List Leader :=
  match getStat data statName with
  | none => []
  | some stat =>
    match stat.persons with
    | none => []
    | some persons =>
      if persons.isEmpty then []
      else
        (persons.take count).map fun p =>
          { name := strShowU p.firstName ++ " " ++ strShowU p.lastName
            total := p.value }

/-- The `processedStats` object; `none` is an omitted key.  Field order
follows insertion order in the source. -/
structure ProcessedStats where
  goalLeaders : Option (List Leader) := none
  assistLeaders : Option (List Leader) := none
  cornerLeaders : Option (List Leader) := none
  shotLeaders : Option (List Leader) := none
  sotLeaders : Option (List Leader) := none
  penaltyKickPercentage : Option TotalVal := none
  passLeaders : Option (List Leader) := none
  passingAccuracy : Option TotalVal := none
  tackleLeaders : Option (List Leader) := none
  interceptionLeaders : Option (List Leader) := none
  headedDuelLeaders : Option (List Leader) := none
  goalsConceded : Option TotalVal := none

/-- The standard block of `processStatsData` (`if (standardData) { ... }`):
goal, assist and corner leaders. -/
def standardBlock (standardData : Option StatsDoc) (s : ProcessedStats) : ProcessedStats :=
  if standardData.isSome then
    { s with
      goalLeaders := some (getStatLeaders standardData "goals")
      assistLeaders := some (getStatLeaders standardData "assists")
      cornerLeaders := some (getStatLeaders standardData "corners") }
  else s

/-- The shooting block of `processStatsData`: shot and shots-on-target
leaders, plus the guarded penalty-kick percentage.  The guard
`pkAttemptsStat && pkGoalsStat && pkAttemptsStat.team.value > 0` evaluates
left to right; `pkAttemptsStat.team.value` (and, once the guard holds,
`pkGoalsStat.team.value`) throws when `team` is absent.  A comparison against
an absent `value` is `undefined > 0`, i.e. `false`. -/
def shootingBlock (shootingData : Option StatsDoc) (s : ProcessedStats) :
    Except Unit ProcessedStats := do
  let base := { s with
    shotLeaders := some (getStatLeaders shootingData "shots")
    sotLeaders := some (getStatLeaders shootingData "shotsOnTarget") }
  match getStat shootingData "penaltyKickAttempts", getStat shootingData "penaltyKickGoals" with
  | some pkAttemptsStat, some pkGoalsStat =>
    match pkAttemptsStat.team with
    | none => .error ()
    | some ta =>
      match ta.value with
      | some a =>
        if a > 0 then
          match pkGoalsStat.team with
          | none => .error ()
          | some tg =>
            let total : JsonV :=
              match tg.value with
              | some g => .jnum (g / a * 100)
              | none => .jnull
            pure { base with penaltyKickPercentage := some ⟨some total⟩ }
        else pure base
      | none => pure base
  | _, _ => pure base

/-- The passing block: pass leaders plus the guarded passing accuracy
(the guard reads `passesAttemptedStat.team.value`, the numerator
`successfulPassesStat.team.value`). -/
def passingBlock (passingData : Option StatsDoc) (s : ProcessedStats) :
    Except Unit ProcessedStats := do
  let base := { s with passLeaders := some (getStatLeaders passingData "successfulPasses") }
  match getStat passingData "successfulPasses", getStat passingData "passesAttempted" with
  | some successfulPassesStat, some passesAttemptedStat =>
    match passesAttemptedStat.team with
    | none => .error ()
    | some ta =>
      match ta.value with
      | some a =>
        if a > 0 then
          match successfulPassesStat.team with
          | none => .error ()
          | some tg =>
            let total : JsonV :=
              match tg.value with
              | some g => .jnum (g / a * 100)
              | none => .jnull
            pure { base with passingAccuracy := some ⟨some total⟩ }
        else pure base
      | none => pure base
  | _, _ => pure base

/-- The defending block: tackle, interception and headed-duel leaders. -/
def defendingBlock (defendingData : Option StatsDoc) (s : ProcessedStats) : ProcessedStats :=
  if defendingData.isSome then
    { s with
      tackleLeaders := some (getStatLeaders defendingData "tacklesWon")
      interceptionLeaders := some (getStatLeaders defendingData "interceptions")
      headedDuelLeaders := some (getStatLeaders defendingData "headedDuelsWon") }
  else s

/-- The goalkeeping block: team goals conceded;
`goalsConcededStat.team.value` throws when `team` is absent. -/
def goalkeepingBlock (goalkeepingData : Option StatsDoc) (s : ProcessedStats) :
    Except Unit ProcessedStats :=
  if goalkeepingData.isSome then
    match getStat goalkeepingData "goalsConceded" with
    | some goalsConcededStat =>
      match goalsConcededStat.team with
      | none => .error ()
      | some t => pure { s with goalsConceded := some ⟨t.value.map .jnum⟩ }
    | none => pure s
  else pure s

/-- `processStatsData`, first revision: five per-category blocks run in
source order; any thrown `TypeError` aborts the whole function (caught by
`fetchAllStats`, which then uses the fallback). -/
def processStatsData (statsResponses : List StatsResp) : Except Unit ProcessedStats :=
  let shootingData := findCat statsResponses "shooting"
  let passingData := findCat statsResponses "passing"
  let s1 := standardBlock (findCat statsResponses "standard") {}
  (if shootingData.isSome then shootingBlock shootingData s1 else pure s1).bind fun s2 =>
  (if passingData.isSome then passingBlock passingData s2 else pure s2).bind fun s3 =>
  goalkeepingBlock (findCat statsResponses "goalkeeping")
    (defendingBlock (findCat statsResponses "defending") s3)

/-- One row of `apiData.data.standings` in this revision: the team reference
plus flat `rank/points/wins/losses/draws` fields. -/
structure StandRow where
  team : Option NamedObj
  rank : Option JsonV
  points : Option JsonV
  wins : Option JsonV
  losses : Option JsonV
  draws : Option JsonV

/-- The output record; `rank`/`points` may be `undefined` (dropped by
`JSON.stringify`), and missing `wins/losses/draws` interpolate as the string
`undefined` inside `record`. -/
structure StandingsRec where
  rank : Option JsonV
  points : Option JsonV
  record : String

/-- `processStandingsData`, first revision (lines 111-120): find the team by
`team.team.name` (throws when a row has no `team`), then emit the record
directly from whatever fields the row has — there is NO completeness check in
this revision. -/
def processStandingsData (apiData : Option (List StandRow)) :
    Except Unit (Option StandingsRec) :=
  match apiData with
  | none => .ok none
  | some standings => do
    let gothamStanding ← findE
      (fun team =>
        match team.team with
        | none => Except.error ()
        | some t => Except.ok (t.name == some "NJ/NY Gotham FC")) standings
    match gothamStanding with
    | none => pure none
    | some g =>
      pure (some
        { rank := g.rank
          points := g.points
          record := jsShowU g.wins ++ "-" ++ jsShowU g.losses ++ "-" ++ jsShowU g.draws })

/-- One `google-it` search result. -/
structure Article where
  title : Option String
  snippet : Option String
  link : Option String

structure NewsItem where
  source : String
  date : String
  title : Option String
  snippet : Option String
  url : Option String

/-- Hostname extraction of the runtime's WHATWG `URL` class (an external
collaborator of the repository), modelled structurally: a URL is valid when
it has a nonempty scheme before `://` and a nonempty host; `none` is a thrown
`TypeError`. -/
def parseURLhost (s : String) : Option String :=
  match splitFirst "://".data s.data with
  | none => none
  | some (scheme, rest) =>
    if scheme.isEmpty then none
    else
      let host := rest.takeWhile fun c =>
        (c != '/') && (c != ':') && (c != '?') && (c != '#')
      if host.isEmpty then none else some ⟨host⟩

/-- The source-label derivation of `processNewsData`: hostname with a leading
`www.` occurrence removed, first dotted label, capitalized; on an invalid
URL the `catch` uses `article.title || 'News Source'`. -/
def sourceNameOf (article : Article) : String :=
  match article.link.bind parseURLhost with
  | some hostname => capFirst (splitHead (jsReplace hostname "www." "") ".")
  | none => if strTruthy article.title then article.title.getD "" else "News Source"

/-- `processNewsData`: maps every search result to a news item.  The
`new Date().toLocaleDateString(...)` stamp is an ambient-clock read, made
explicit as the `today` parameter.  No filtering, sorting, capping or snippet
truncation happens here. -/
def processNewsData (searchData : Option (List Article)) (today : String) :
    List NewsItem :=
  match searchData with
  | none => []
  | some articles =>
    if articles.isEmpty then []
    else
      articles.map fun article =>
        { source := sourceNameOf article
          date := today
          title := article.title
          snippet := article.snippet
          url := article.link }

end V1

/-- Outcome of one upstream acquisition: transport failure (non-success HTTP
status or network/connection error), an undecodable body, or a decoded
payload. -/
inductive Upstream (α : Type) where
  | failed : Upstream α
  | badBody : Upstream α
  | decoded (payload : α) : Upstream α

/-- A JSON object field that `JSON.stringify` drops when the value is
`undefined`. -/
def optPair (k : String) (v : Option JsonV) : List (String × JsonV) :=
  match v with
  | none => []
  | some j => [(k, j)]

namespace V1

/-- `fallbackData.roster` of the first revision — literally an empty array
(the `/* Full roster data */` comment stands in for content that is not
there). -/
def fallbackRoster : List RosterEntry := []

/-- `fallbackData.schedule`. -/
def fallbackSchedule : List SchedEntry :=
  [{ opponent := some "NC Courage", date := some "2025-10-26T17:00:00",
     location := some "WakeMed Soccer Park", broadcast := "NWSL+", home := false }]

/-- `fallbackData.stats` (the mojibake in the name is verbatim from the
source). -/
def fallbackStats : ProcessedStats :=
  { goalLeaders := some [{ name := "Esther GonzÃ¡lez", total := some (.jnum 9) }]
    assistLeaders := some [{ name := "Rose Lavelle", total := some (.jnum 6) }] }

/-- `fallbackData.standings`. -/
def fallbackStandings : Option StandingsRec :=
  some { rank := some (.jnum 3), points := some (.jnum 38), record := "10-6-8" }

/-- `fallbackData.news` — literally empty. -/
def fallbackNews : List NewsItem := []

/-- `fallbackData.social` — literally empty. -/
def fallbackSocial : List JsonV := []

/-- `fetchData`: a transport/decode failure, a thrown processor, a `null`
processor result, or an empty-array processor result each fall back.
`isEmptyResult` instantiates
`!processedData || (Array.isArray(processedData) && processedData.length === 0)`
at the processor's result type. -/
def fetchData (out : Upstream α) (processor : α → Except Unit γ)
    (isEmptyResult : γ → Bool) (fallback : γ) : γ :=
  match out with
  | .failed => fallback
  | .badBody => fallback
  | .decoded a =>
    match processor a with
    | .error _ => fallback
    | .ok processedData =>
      if isEmptyResult processedData then fallback else processedData

/-- `fetchAllStats`: the five per-category fetches share one collective
outcome (a rejection of any of them rejects the `Promise.all`), and a throw
inside `processStatsData` is also absorbed into the stats fallback.  There is
no emptiness check here. -/
def fetchAllStats (out : Upstream (List StatsResp)) : ProcessedStats :=
  match out with
  | .failed => fallbackStats
  | .badBody => fallbackStats
  | .decoded statsResponses =>
    match processStatsData statsResponses with
    | .error _ => fallbackStats
    | .ok ps => ps

/-- `fetchLiveNews`: a failed search or an empty processed list falls back. -/
def fetchLiveNews (out : Upstream (List Article)) (today : String) : List NewsItem :=
  match out with
  | .failed => fallbackNews
  | .badBody => fallbackNews
  | .decoded searchResults =>
    let processedNews := processNewsData (some searchResults) today
    if processedNews.isEmpty then fallbackNews else processedNews

/-! `JSON.stringify` of the canonical shapes: object keys in insertion order,
`undefined`-valued keys dropped, `null` kept. -/

def renderRosterEntry (e : RosterEntry) : JsonV :=
  .jobj [("name", .jstr e.name), ("pos", .jstr e.pos), ("num", e.num), ("bio", .jstr e.bio)]

def renderSchedEntry (e : SchedEntry) : JsonV :=
  .jobj (optPair "opponent" (e.opponent.map .jstr) ++ optPair "date" (e.date.map .jstr)
    ++ optPair "location" (e.location.map .jstr)
    ++ [("broadcast", .jstr e.broadcast), ("home", .jbool e.home)])

def renderLeader (l : Leader) : JsonV :=
  .jobj ([("name", .jstr l.name)] ++ optPair "total" l.total)

def renderTotalVal (t : TotalVal) : JsonV :=
  .jobj (optPair "total" t.total)

def renderLeaderList (k : String) (v : Option (List Leader)) : List (String × JsonV) :=
  optPair k (v.map (fun ls => .jarr (ls.map renderLeader)))

def renderStats (s : ProcessedStats) : JsonV :=
  .jobj (renderLeaderList "goalLeaders" s.goalLeaders
    ++ renderLeaderList "assistLeaders" s.assistLeaders
    ++ renderLeaderList "cornerLeaders" s.cornerLeaders
    ++ renderLeaderList "shotLeaders" s.shotLeaders
    ++ renderLeaderList "sotLeaders" s.sotLeaders
    ++ optPair "penaltyKickPercentage" (s.penaltyKickPercentage.map renderTotalVal)
    ++ renderLeaderList "passLeaders" s.passLeaders
    ++ optPair "passingAccuracy" (s.passingAccuracy.map renderTotalVal)
    ++ renderLeaderList "tackleLeaders" s.tackleLeaders
    ++ renderLeaderList "interceptionLeaders" s.interceptionLeaders
    ++ renderLeaderList "headedDuelLeaders" s.headedDuelLeaders
    ++ optPair "goalsConceded" (s.goalsConceded.map renderTotalVal))

def renderStandingsRec (r : StandingsRec) : JsonV :=
  .jobj (optPair "rank" r.rank ++ optPair "points" r.points ++ [("record", .jstr r.record)])

def renderStandings : Option StandingsRec → JsonV
  | none => .jnull
  | some r => renderStandingsRec r

def renderNewsItem (n : NewsItem) : JsonV :=
  .jobj ([("source", .jstr n.source), ("date", .jstr n.date)]
    ++ optPair "title" (n.title.map .jstr) ++ optPair "snippet" (n.snippet.map .jstr)
    ++ optPair "url" (n.url.map .jstr))

/-- One upstream outcome per category (the five acquisitions of the
`Promise.all`). -/
structure Outcomes where
  roster : Upstream (Option (List RosterItem))
  schedule : Upstream (Option (List MatchItem))
  stats : Upstream (List StatsResp)
  standings : Upstream (Option (List StandRow))
  news : Upstream (List Article)

/-- `exports.handler`, first revision: five independent acquisitions, each
absorbing its own failure into its own fallback; the response is always
status 200 with all six keys (`social` is always the static fallback). -/
def handler (o : Outcomes) (today : String) : Nat × JsonV :=
  let roster := fetchData o.roster processNWSLRosterData List.isEmpty fallbackRoster
  let schedule := fetchData o.schedule processScheduleData List.isEmpty fallbackSchedule
  let stats := fetchAllStats o.stats
  let standings := fetchData o.standings processStandingsData Option.isNone fallbackStandings
  let news := fetchLiveNews o.news today
  (200, .jobj
    [("roster", .jarr (roster.map renderRosterEntry)),
     ("schedule", .jarr (schedule.map renderSchedEntry)),
     ("stats", renderStats stats),
     ("standings", renderStandings standings),
     ("news", .jarr (news.map renderNewsItem)),
     ("social", .jarr fallbackSocial)])

end V1

namespace P0

/-! ### `unnamed/part_000` — its `processNWSLRosterData` and
`processStandingsData` are textually identical to `part_001`'s and are shared
as `P1.processNWSLRosterData` / `P1.processStandingsData`; this namespace
adds the revision's own stats and schedule normalizers and its handler. -/

def GOTHAM_ID : String := "nwsl::Football_Team::c83f2ca05aa84c738b5373f0d2a31b39"

/-- One `{statsId, statsLabel, statsValue}` row of `apiData.team.stats`. -/
structure TeamStatRow where
  statsId : Option String
  statsLabel : Option String
  statsValue : Option JsonV

structure TeamObj where
  stats : Option (List TeamStatRow)

/-- JavaScript object assignment `obj[k] = v`: overwrite in place or append. -/
def upsert (k : String) (v : JsonV) : List (String × JsonV) → List (String × JsonV)
  | [] => [(k, v)]
  | (k', v') :: rest => if k' == k then (k, v) :: rest else (k', v') :: upsert k v rest

/-- `processStatsData` of `part_000` (the GENERAL team-stats shape): flatten
`apiData.team.stats` into an object keyed by `statsId` (an absent id becomes
the literal key `"undefined"`). -/
def processStatsData (apiData : Option TeamObj) : Option (List (String × JsonV)) :=
  match apiData with
  | none => none
  | some team =>
    match team.stats with
    | none => none
    | some statsArray =>
      some (statsArray.foldl
        (fun statsObj stat =>
          upsert (stat.statsId.getD "undefined")
            (.jobj (optPair "label" (stat.statsLabel.map .jstr)
              ++ optPair "value" stat.statsValue))
            statsObj)
        [])

/-- A team reference in a `part_000` schedule match. -/
structure TeamRef where
  teamId : Option String
  teamName : Option String
  name : Option String

structure Competition where
  name : Option String
  competitionName : Option String

/-- One entry of the `matches` array in `part_000`. -/
structure RawMatch0 where
  homeTeam : Option TeamRef
  awayTeam : Option TeamRef
  matchDate : Option String
  venue : Option NamedObj
  venueName : Option String
  competition : Option Competition

/-- The schedule entry this revision emits (`date`/`time` come from
locale-dependent formatting; `competition`/`location` can be `undefined`). -/
structure SchedEntry0 where
  date : String
  time : String
  competition : Option String
  opponent : String
  location : Option String
  home : Bool

/-- The guarded filter predicate
`(m.homeTeam && m.homeTeam.teamId === GOTHAM_ID) || (m.awayTeam && ...)`. -/
def isGothamMatch0 (m : RawMatch0) : Bool :=
  (match m.homeTeam with
    | some ht => ht.teamId == some GOTHAM_ID
    | none => false)
  || (match m.awayTeam with
    | some aw => aw.teamId == some GOTHAM_ID
    | none => false)

/-- The `gothamMatches.map(...)` callback.  `fmtD`/`fmtT` stand for the
runtime's `toLocaleDateString`/`toLocaleTimeString` on `new Date(matchDate)`
(ambient locale and timezone made explicit; an absent date formats the
Invalid Date).  Reading `teamId` off an absent `homeTeam`, or the opponent
fields off an absent `awayTeam`, throws into the surrounding `catch`. -/
def toSchedEntry0 (fmtD fmtT : Option String → String) (m : RawMatch0) :
    Except Unit SchedEntry0 := do
  match m.homeTeam with
  | none => .error ()
  | some ht =>
    let isHome := ht.teamId == some GOTHAM_ID
    let opponent ←
      (if isHome then
        match m.awayTeam with
        | none => Except.error ()
        | some aw => Except.ok
            (if strTruthy aw.teamName then aw.teamName.getD ""
             else if strTruthy aw.name then aw.name.getD "" else "Opponent")
      else Except.ok
        (if strTruthy ht.teamName then ht.teamName.getD ""
         else if strTruthy ht.name then ht.name.getD "" else "Opponent"))
    let location : Option String :=
      match m.venue with
      | some v => v.name
      | none => some
          (if strTruthy m.venueName then m.venueName.getD ""
           else if isHome then "Red Bull Arena" else "Away")
    let competition : Option String :=
      match m.competition with
      | some c => if strTruthy c.name then c.name else c.competitionName
      | none => some "NWSL"
    pure
      { date := fmtD m.matchDate
        time := fmtT m.matchDate
        competition := competition
        opponent := opponent
        location := location
        home := isHome }

/-- `processScheduleData` of `part_000`: the whole body sits inside a
`try { ... } catch { return [] }`, so a malformed entry empties the whole
category rather than being skipped. -/
def processScheduleData (apiData : Option (List RawMatch0))
    (fmtD fmtT : Option String → String) : List SchedEntry0 :=
  match apiData with
  | none => []
  | some matchList =>
    match mapE (toSchedEntry0 fmtD fmtT) (matchList.filter isGothamMatch0) with
    | .error _ => []
    | .ok entries => entries

/-! `JSON.stringify` renderers for this revision's shapes. -/

def renderRosterEntryP1 (e : P1.RosterEntry) : JsonV :=
  .jobj [("name", .jstr e.name), ("pos", .jstr e.pos), ("num", e.num), ("bio", .jstr e.bio),
    ("headshot", match e.headshot with | some u => .jstr u | none => .jnull),
    ("pageUrl", match e.pageUrl with | some u => .jstr u | none => .jnull)]

def renderStandingsRecP1 (r : P1.StandingsRec) : JsonV :=
  .jobj [("rank", r.rank), ("points", r.points), ("record", .jstr r.record)]

def renderSchedEntry0 (e : SchedEntry0) : JsonV :=
  .jobj ([("date", .jstr e.date), ("time", .jstr e.time)]
    ++ optPair "competition" (e.competition.map .jstr)
    ++ [("opponent", .jstr e.opponent)]
    ++ optPair "location" (e.location.map .jstr)
    ++ [("home", .jbool e.home)])

/-- `fallbackData.roster` of `part_000`. -/
def fallbackRoster0 : JsonV :=
  .jarr [renderRosterEntryP1
    { name := "Ann-Katrin Berger", pos := "GK", num := .jnum 30,
      bio := "Goalkeeper from Germany", headshot := none, pageUrl := none }]

def fallbackSchedule0 : JsonV :=
  .jarr [.jobj [("opponent", .jstr "Example Opponent (Fallback)"),
    ("date", .jstr "Date TBD"), ("time", .jstr "Time TBD"),
    ("location", .jstr "Location TBD"), ("broadcast", .jstr "TBD"),
    ("home", .jbool true)]]

def fallbackStats0 : JsonV :=
  .jobj [("goals-scored", .jobj [("label", .jstr "Goals scored"), ("value", .jstr "N/A")])]

def fallbackStandings0 : JsonV :=
  .jobj [("rank", .jstr "N/A"), ("points", .jstr "N/A"), ("record", .jstr "N/A")]

/-- `fetchAndProcess` of `part_000`.  The emptiness check of the other
revisions is COMMENTED OUT in this file (with the remark
`Actually, empty array is valid if no games.`), so a `null` or empty
processor result is returned as-is, NOT replaced by the fallback; only a
transport/decode failure or a thrown processor falls back. -/
def fetchAndProcess (out : Upstream α) (processor : α → Except Unit JsonV)
    (fallback : JsonV) : JsonV :=
  match out with
  | .failed => fallback
  | .badBody => fallback
  | .decoded a =>
    match processor a with
    | .error _ => fallback
    | .ok processedData => processedData

/-- One upstream outcome per acquisition of the `part_000` handler; the
enrichment index is the result of `fetchCsvData` (which yields `{}` on its
own failure). -/
structure Outcomes0 where
  enrichment : P1.EnrichmentIndex
  stats : Upstream (Option TeamObj)
  standings : Upstream (Option (List P1.StandTable))
  schedule : Upstream (Option (List RawMatch0))
  roster : Upstream (Option (List P1.RawPlayer))

/-- `exports.handler` of `part_000`: four acquisitions plus the
`finalSchedule` re-guard (`schedule && schedule.length > 0`), merged into a
status-200 response with keys roster/schedule/stats/standings. -/
def handler (o : Outcomes0) (fmtD fmtT : Option String → String) : Nat × JsonV :=
  let stats := fetchAndProcess o.stats
    (fun a => .ok
      (match processStatsData a with
      | none => .jnull
      | some rows => .jobj rows))
    fallbackStats0
  let standings := fetchAndProcess o.standings
    (fun a => .ok
      (match P1.processStandingsData a with
      | none => .jnull
      | some r => renderStandingsRecP1 r))
    fallbackStandings0
  let schedule := fetchAndProcess o.schedule
    (fun a => .ok (.jarr ((processScheduleData a fmtD fmtT).map renderSchedEntry0)))
    fallbackSchedule0
  let roster := fetchAndProcess o.roster
    (fun a => .ok (.jarr ((P1.processNWSLRosterData a o.enrichment).map renderRosterEntryP1)))
    fallbackRoster0
  let finalSchedule :=
    match schedule with
    | .jarr xs => if xs.isEmpty then fallbackSchedule0 else schedule
    | _ => fallbackSchedule0
  (200, .jobj [("roster", roster), ("schedule", finalSchedule),
    ("stats", stats), ("standings", standings)])

end P0

/-- A roster entry the per-player normalizer can parse: both media name
fields truthy and a role label present (the spec's "well-formed entry"). -/
def wellFormedPlayer (p : P1.RawPlayer) : Bool :=
  strTruthy p.mediaFirstName && strTruthy p.mediaLastName && p.roleLabel.isSome

theorem processPlayer_eq_none (enr : P1.EnrichmentIndex) (p : P1.RawPlayer)
    (h : wellFormedPlayer p = false) : P1.processPlayer enr p = none := by
  unfold wellFormedPlayer at h
  unfold P1.processPlayer
  rcases hb : strTruthy p.mediaFirstName && strTruthy p.mediaLastName with _ | _
  · simp [hb]
  · rw [hb] at h
    simp only [Bool.true_and] at h
    have hnone : p.roleLabel = none := by
      cases hr : p.roleLabel with
      | none => rfl
      | some role => rw [hr] at h; simp at h
    simp [hb, hnone]

theorem processPlayer_of_wf (enr : P1.EnrichmentIndex) (p : P1.RawPlayer)
    (h : wellFormedPlayer p = true) :
    ∃ e, P1.processPlayer enr p = some e
      ∧ e.name = (p.mediaFirstName.getD "") ++ " " ++ (p.mediaLastName.getD "") := by
  unfold wellFormedPlayer at h
  simp only [Bool.and_eq_true] at h
  obtain ⟨⟨h1, h2⟩, h3⟩ := h
  obtain ⟨role, hrole⟩ := Option.isSome_iff_exists.1 h3
  unfold P1.processPlayer
  rw [h1, h2, hrole]
  simp only [Bool.and_self, Bool.not_true, Bool.false_eq_true, if_false]
  exact ⟨_, rfl, rfl⟩

/-- C6: role labels are collapsed before the fixed position lookup, so
"Attacking Midfielder", "Defensive Midfielder" and plain "Midfielder" all map
to the code "MF"; any label whose collapsed form is outside the lookup yields
the explicit marker "N/A", and a player with names and a role label present
always produces an entry (the normalizer never raises). -/
theorem C6_role_collapsing (enr : P1.EnrichmentIndex) (p : P1.RawPlayer) (label : String)
    (hn1 : strTruthy p.mediaFirstName = true) (hn2 : strTruthy p.mediaLastName = true)
    (hrole : p.roleLabel = some label) :
    ∃ e, P1.processPlayer enr p = some e
      ∧ ((label = "Attacking Midfielder" ∨ label = "Defensive Midfielder" ∨ label = "Midfielder")
          → e.pos = "MF")
      ∧ (posMap (collapseRole label) = none → e.pos = "N/A") := by
  unfold P1.processPlayer
  rw [hn1, hn2, hrole]
  simp only [Bool.and_self, Bool.not_true, Bool.false_eq_true, if_false]
  refine ⟨_, rfl, ?_, ?_⟩
  · rintro (h | h | h) <;> subst h <;> rfl
  · intro h
    show (posMap (collapseRole label)).getD "N/A" = "N/A"
    rw [h]
    rfl

/-- C10: the canonical `num` equals the upstream `bibNumber` whenever that
value is truthy, and is the string "N/A" when it is absent or falsy; in
particular a player with jersey number 0 produces the very same canonical
record as the same player with no jersey number at all. -/
theorem C10_num_truthiness (enr : P1.EnrichmentIndex) (p : P1.RawPlayer) :
    (∀ b e, p.bibNumber = some b → b ≠ 0 → P1.processPlayer enr p = some e
      → e.num = .jnum b)
    ∧ P1.processPlayer enr { p with bibNumber := some 0 }
        = P1.processPlayer enr { p with bibNumber := none }
    ∧ (∀ e, P1.processPlayer enr { p with bibNumber := some 0 } = some e
      → e.num = .jstr "N/A") := by
  refine ⟨?_, ?_, ?_⟩
  · intro b e hb hb0 he
    unfold P1.processPlayer at he
    split at he
    · exact absurd he (by simp)
    · split at he
      · exact absurd he (by simp)
      · injection he with he'
        subst he'
        show (match p.bibNumber with
          | some b => if b ≠ 0 then JsonV.jnum b else JsonV.jstr "N/A"
          | none => JsonV.jstr "N/A") = JsonV.jnum b
        rw [hb]
        simp [hb0]
  · simp only [P1.processPlayer]
    split
    · rfl
    · split
      · rfl
      · simp
  · intro e he
    unfold P1.processPlayer at he
    split at he
    · exact absurd he (by simp)
    · split at he
      · exact absurd he (by simp)
      · injection he with he'
        subst he'
        rfl

theorem findEnriched_hit (enr : P1.EnrichmentIndex) (k : String) (ks : List String)
    (r : P1.EnrichedRec) (hne : k ≠ "") (h : P1.idxGet enr k = some r) :
    P1.findEnriched enr ((k :: ks).filter (fun x => !x.isEmpty)) = r := by
  have hk : k.isEmpty = false := by
    rw [Bool.eq_false_iff]
    intro hh
    exact hne ((String.isEmpty_iff k).1 hh)
  simp [List.filter_cons, hk, P1.findEnriched, h]

theorem findEnriched_skip (enr : P1.EnrichmentIndex) (k : String) (ks : List String)
    (h : k = "" ∨ P1.idxGet enr k = none) :
    P1.findEnriched enr ((k :: ks).filter (fun x => !x.isEmpty))
      = P1.findEnriched enr (ks.filter (fun x => !x.isEmpty)) := by
  rcases h with h | h
  · subst h
    have he : "".isEmpty = true := rfl
    simp [List.filter_cons, he]
  · by_cases hk : k.isEmpty = true
    · simp [List.filter_cons, hk]
    · simp only [Bool.not_eq_true] at hk
      simp [List.filter_cons, hk, P1.findEnriched, h]

/-- Extraction: an emitted entry's enrichment fields are those of the
first-match walk over the filtered candidate keys. -/
theorem processPlayer_enrichment (enr : P1.EnrichmentIndex) (p : P1.RawPlayer)
    (e : P1.RosterEntry) (hout : P1.processPlayer enr p = some e) :
    e.headshot = (if strTruthy (P1.findEnriched enr
        (([P1.normalizeName p.shirtName, P1.normalizeName p.shortName,
          P1.normalizeName p.mediaLastName]).filter (fun k => !k.isEmpty))).headshotUrl
      then (P1.findEnriched enr
        (([P1.normalizeName p.shirtName, P1.normalizeName p.shortName,
          P1.normalizeName p.mediaLastName]).filter (fun k => !k.isEmpty))).headshotUrl
      else none)
    ∧ e.pageUrl = (if strTruthy (P1.findEnriched enr
        (([P1.normalizeName p.shirtName, P1.normalizeName p.shortName,
          P1.normalizeName p.mediaLastName]).filter (fun k => !k.isEmpty))).playerPageUrl
      then (P1.findEnriched enr
        (([P1.normalizeName p.shirtName, P1.normalizeName p.shortName,
          P1.normalizeName p.mediaLastName]).filter (fun k => !k.isEmpty))).playerPageUrl
      else none) := by
  unfold P1.processPlayer at hout
  split at hout
  · exact absurd hout (by simp)
  · split at hout
    · exact absurd hout (by simp)
    · injection hout with he
      subst he
      exact ⟨rfl, rfl⟩

/-- C7: enrichment is attached from the first candidate name-key that has an
index entry, in the fixed priority order jersey-name (shirt name), then
short-name, then last-name — a higher-priority hit wins regardless of
lower-priority entries; and when no candidate key matches, both enrichment
fields are null, never an error. -/
theorem C7_enrichment_priority (enr : P1.EnrichmentIndex) (p : P1.RawPlayer) (e : P1.RosterEntry)
    (hout : P1.processPlayer enr p = some e) :
    (∀ r, P1.normalizeName p.shirtName ≠ "" →
        P1.idxGet enr (P1.normalizeName p.shirtName) = some r →
        e.headshot = (if strTruthy r.headshotUrl then r.headshotUrl else none)
        ∧ e.pageUrl = (if strTruthy r.playerPageUrl then r.playerPageUrl else none))
    ∧ (∀ r, (P1.normalizeName p.shirtName = ""
          ∨ P1.idxGet enr (P1.normalizeName p.shirtName) = none) →
        P1.normalizeName p.shortName ≠ "" →
        P1.idxGet enr (P1.normalizeName p.shortName) = some r →
        e.headshot = (if strTruthy r.headshotUrl then r.headshotUrl else none)
        ∧ e.pageUrl = (if strTruthy r.playerPageUrl then r.playerPageUrl else none))
    ∧ (∀ r, (P1.normalizeName p.shirtName = ""
          ∨ P1.idxGet enr (P1.normalizeName p.shirtName) = none) →
        (P1.normalizeName p.shortName = ""
          ∨ P1.idxGet enr (P1.normalizeName p.shortName) = none) →
        P1.normalizeName p.mediaLastName ≠ "" →
        P1.idxGet enr (P1.normalizeName p.mediaLastName) = some r →
        e.headshot = (if strTruthy r.headshotUrl then r.headshotUrl else none)
        ∧ e.pageUrl = (if strTruthy r.playerPageUrl then r.playerPageUrl else none))
    ∧ ((P1.normalizeName p.shirtName = ""
          ∨ P1.idxGet enr (P1.normalizeName p.shirtName) = none) →
        (P1.normalizeName p.shortName = ""
          ∨ P1.idxGet enr (P1.normalizeName p.shortName) = none) →
        (P1.normalizeName p.mediaLastName = ""
          ∨ P1.idxGet enr (P1.normalizeName p.mediaLastName) = none) →
        e.headshot = none ∧ e.pageUrl = none) := by
  obtain ⟨hh, hp⟩ := processPlayer_enrichment enr p e hout
  refine ⟨?_, ?_, ?_, ?_⟩
  · intro r hne hr
    rw [hh, hp, findEnriched_hit enr _ _ r hne hr]
    exact ⟨rfl, rfl⟩
  · intro r hskip hne hr
    rw [hh, hp, findEnriched_skip enr _ _ hskip, findEnriched_hit enr _ _ r hne hr]
    exact ⟨rfl, rfl⟩
  · intro r hskip1 hskip2 hne hr
    rw [hh, hp, findEnriched_skip enr _ _ hskip1, findEnriched_skip enr _ _ hskip2,
      findEnriched_hit enr _ _ r hne hr]
    exact ⟨rfl, rfl⟩
  · intro h1 h2 h3
    rw [hh, hp, findEnriched_skip enr _ _ h1, findEnriched_skip enr _ _ h2,
      findEnriched_skip enr _ _ h3]
    exact ⟨rfl, rfl⟩

/-- C3 (amended): the ROSTER normalizer skips a malformed entry instead of
aborting — deleting a malformed entry from the payload does not change the
output; on an all-well-formed payload the output lists exactly the active
entries' names in input order; and the normalizer yields EMPTY (`[]`) when
the source list is absent or no entry survives.  (The claim's extension of
this behaviour to the schedule normalizer is refuted by
the counterexample: there a malformed entry throws and the
whole schedule category falls back.) -/
theorem C3_amended_list_resilience (enr : P1.EnrichmentIndex) :
    (∀ pre post (bad : P1.RawPlayer), wellFormedPlayer bad = false →
      P1.processNWSLRosterData (some (pre ++ bad :: post)) enr
        = P1.processNWSLRosterData (some (pre ++ post)) enr)
    ∧ (∀ ps : List P1.RawPlayer, (∀ p ∈ ps, wellFormedPlayer p = true) →
      (P1.processNWSLRosterData (some ps) enr).map (fun e => e.name)
        = (ps.filter (fun p => p.playerStatus == some "Active")).map
            (fun p => (p.mediaFirstName.getD "") ++ " " ++ (p.mediaLastName.getD "")))
    ∧ P1.processNWSLRosterData none enr = []
    ∧ (∀ ps : List P1.RawPlayer, (∀ p ∈ ps, wellFormedPlayer p = false) →
      P1.processNWSLRosterData (some ps) enr = []) := by
  refine ⟨?_, ?_, rfl, ?_⟩
  · intro pre post bad hbad
    unfold P1.processNWSLRosterData
    simp only [List.filter_append, List.filter_cons, List.filterMap_append]
    by_cases hs : (bad.playerStatus == some "Active") = true
    · simp [hs, List.filterMap_cons, processPlayer_eq_none enr bad hbad]
    · simp [hs]
  · intro ps hwf
    induction ps with
    | nil => rfl
    | cons hd tl ih =>
      have hhd := hwf hd (List.mem_cons_self hd tl)
      have htl : ∀ p ∈ tl, wellFormedPlayer p = true :=
        fun p hp => hwf p (List.mem_cons_of_mem hd hp)
      obtain ⟨e, he, hname⟩ := processPlayer_of_wf enr hd hhd
      unfold P1.processNWSLRosterData at ih ⊢
      simp only [List.filter_cons]
      by_cases hs : (hd.playerStatus == some "Active") = true
      · simp only [hs, if_true, List.filterMap_cons, he, List.map_cons, hname]
        rw [ih htl]
      · simp only [hs, if_false, Bool.false_eq_true]
        exact ih htl
  · intro ps hbad
    induction ps with
    | nil => rfl
    | cons hd tl ih =>
      have hhd := hbad hd (List.mem_cons_self hd tl)
      have htl : ∀ p ∈ tl, wellFormedPlayer p = false :=
        fun p hp => hbad p (List.mem_cons_of_mem hd hp)
      unfold P1.processNWSLRosterData at ih ⊢
      simp only [List.filter_cons]
      by_cases hs : (hd.playerStatus == some "Active") = true
      · simp only [hs, if_true, List.filterMap_cons, processPlayer_eq_none enr hd hhd]
        exact ih htl
      · simp only [hs, if_false, Bool.false_eq_true]
        exact ih htl

/-- C3 counterexample: a schedule payload with one well-formed Gotham match
normalizes fine, but appending one malformed match (missing `home`) makes the
`part_001` schedule normalizer throw — the whole category is aborted to
fallback instead of the malformed entry being skipped. -/
theorem C3_counterexample :
    P1.processScheduleData (some
      [{ home := some ⟨some "Gotham FC"⟩, away := some ⟨some "NC Courage"⟩,
         editorial := some ⟨some ⟨some "CBS", none, none⟩⟩,
         matchDateUtc := some "2025-05-04T21:00:00Z", stadiumName := some "Sports Illustrated Stadium" }])
      = .ok [{ opponent := some "NC Courage", date := some "2025-05-04T21:00:00Z",
               location := some "Sports Illustrated Stadium", broadcast := "CBS", home := true }]
    ∧ P1.processScheduleData (some
      [{ home := some ⟨some "Gotham FC"⟩, away := some ⟨some "NC Courage"⟩,
         editorial := some ⟨some ⟨some "CBS", none, none⟩⟩,
         matchDateUtc := some "2025-05-04T21:00:00Z", stadiumName := some "Sports Illustrated Stadium" },
       { home := none, away := none, editorial := none,
         matchDateUtc := none, stadiumName := none }])
      = .error () := by
  exact ⟨rfl, rfl⟩

/-- C4 (amended): the `part_001`/`part_000` standings normalizer is
all-or-nothing — if the configured team's row is missing, its `stats` are
missing, or any of the five statsId values rank/points/win/lose/draw is
absent, the whole category is EMPTY (`none`), never a partial record.  (The
first-revision normalizer in `get-gotham-data.js` violates this: see the
counterexample.) -/
theorem C4_amended_all_or_nothing (apiData : Option (List P1.StandTable)) :
    (P1.lookupGothamRow apiData = none → P1.processStandingsData apiData = none)
    ∧ (∀ g, P1.lookupGothamRow apiData = some g →
        (g.stats = none → P1.processStandingsData apiData = none)
        ∧ (∀ stats, g.stats = some stats →
          (P1.getStatRow stats "rank" = none ∨ P1.getStatRow stats "points" = none
            ∨ P1.getStatRow stats "win" = none ∨ P1.getStatRow stats "lose" = none
            ∨ P1.getStatRow stats "draw" = none) →
          P1.processStandingsData apiData = none)) := by
  constructor
  · intro h
    simp [P1.processStandingsData, h]
  · intro g hg
    constructor
    · intro hs
      simp [P1.processStandingsData, hg, hs]
    · intro stats hs hmiss
      simp only [P1.processStandingsData, hg, hs]
      rcases hmiss with h | h | h | h | h <;> rw [h] <;>
        rcases P1.getStatRow stats "rank" with _ | r <;>
        rcases P1.getStatRow stats "points" with _ | pt <;>
        rcases P1.getStatRow stats "win" with _ | w <;>
        rcases P1.getStatRow stats "lose" with _ | l <;>
        rcases P1.getStatRow stats "draw" with _ | d <;>
        rfl
  
/-- C4 counterexample: the first-revision standings normalizer
(`get-gotham-data.js` lines 111-120), given the configured team's row with
`draws` missing, returns a PARTIALLY populated record whose `record` string
interpolates the literal `undefined` — not EMPTY as the claim states. -/
theorem C4_counterexample :
    V1.processStandingsData (some
      [{ team := some ⟨some "NJ/NY Gotham FC"⟩, rank := some (.jnum 3),
         points := some (.jnum 38), wins := some (.jnum 10), losses := some (.jnum 6),
         draws := none }])
      = .ok (some { rank := some (.jnum 3), points := some (.jnum 38),
                    record := "10-6-undefined" }) := by
  rfl

theorem processNewsData_eq_map (articles : List V1.Article) (today : String) :
    V1.processNewsData (some articles) today = articles.map (fun a =>
      { source := V1.sourceNameOf a, date := today, title := a.title,
        snippet := a.snippet, url := a.link }) := by
  unfold V1.processNewsData
  cases articles with
  | nil => rfl
  | cons a tl => rfl

/-- The spec-side keyword test ("team name variants, league name"):
does the string contain `Gotham` or `NWSL`? -/
def specContainsKeyword (s : String) : Bool :=
  (splitFirst "Gotham".data s.data).isSome || (splitFirst "NWSL".data s.data).isSome

/-- C8 (amended): the news normalizer performs no keyword filtering, no
sorting, no capping and no snippet truncation — it maps every fetched item,
in input order, one-to-one (same length, snippet unchanged at every index),
stamping each with the current date. -/
theorem C8_amended_news_mapping (articles : List V1.Article) (today : String) :
    (V1.processNewsData (some articles) today).length = articles.length
    ∧ (∀ i, ((V1.processNewsData (some articles) today).get? i).map (fun n => n.snippet)
        = (articles.get? i).map (fun a => a.snippet))
    ∧ (∀ n ∈ V1.processNewsData (some articles) today, n.date = today) := by
  refine ⟨?_, ?_, ?_⟩
  · simp [processNewsData_eq_map]
  · intro i
    simp only [processNewsData_eq_map, List.get?_map]
    rcases articles.get? i with _ | a <;> rfl
  · intro n hn
    rw [processNewsData_eq_map] at hn
    obtain ⟨a, _, ha⟩ := List.mem_map.1 hn
    rw [← ha]

/-- C8 counterexample: an article whose title and snippet contain none of the
team/league keywords is KEPT by `processNewsData`, with its snippet passed
through untruncated and no ellipsis — refuting the claimed keyword filter,
cap and truncation. -/
theorem C8_counterexample :
    V1.processNewsData (some
      [{ title := some "Knitting club weekly meetup",
         snippet := some "The group meets on Tuesdays to exchange yarn patterns and plan the autumn fair.",
         link := some "https://www.example.com/knitting" }]) "Oct 11, 2025"
      = [{ source := "Example", date := "Oct 11, 2025",
           title := some "Knitting club weekly meetup",
           snippet := some "The group meets on Tuesdays to exchange yarn patterns and plan the autumn fair.",
           url := some "https://www.example.com/knitting" }]
    ∧ specContainsKeyword "Knitting club weekly meetup" = false
    ∧ specContainsKeyword "The group meets on Tuesdays to exchange yarn patterns and plan the autumn fair." = false := by
  exact ⟨rfl, rfl, rfl⟩

/-- C9 counterexample: `processNewsData` reads the ambient clock — the same
search results processed at two different clock readings produce different
outputs (the `date` field), so the news normalizer is not a pure function of
its input. -/
theorem C9_counterexample :
    V1.processNewsData (some [{ title := some "Match report", snippet := some "Summary", link := none }])
        "Oct 11, 2025"
      ≠ V1.processNewsData (some [{ title := some "Match report", snippet := some "Summary", link := none }])
        "Oct 12, 2025" := by
  intro h
  exact absurd
    (congrArg (fun l => match l with | [] => "" | n :: _ => V1.NewsItem.date n) h)
    (by decide)


/-- The `part_000` per-match schedule callback is formatter-independent away
from `date`/`time`: projecting those fields out, its result does not depend
on the ambient `toLocaleDateString`/`toLocaleTimeString` formatters. -/
theorem toSchedEntry0_proj (fmtD fmtT fmtD2 fmtT2 : Option String → String)
    (m : P0.RawMatch0) :
    (P0.toSchedEntry0 fmtD fmtT m).map
        (fun e => (e.competition, e.opponent, e.location, e.home))
      = (P0.toSchedEntry0 fmtD2 fmtT2 m).map
        (fun e => (e.competition, e.opponent, e.location, e.home)) := by
  rcases hh : m.homeTeam with _ | ht
  · simp only [P0.toSchedEntry0, hh]
  · rcases ha : m.awayTeam with _ | aw <;>
      cases hb : (ht.teamId == some P0.GOTHAM_ID) <;>
        simp only [P0.toSchedEntry0, hh, ha, hb] <;> try rfl

/-- Two effectful maps whose callbacks agree up to a projection agree up to
that projection (in particular they throw on exactly the same inputs). -/
theorem mapE_proj {α β γ : Type} (f g : α → Except Unit β) (proj : β → γ)
    (hfg : ∀ m, (f m).map proj = (g m).map proj) (l : List α) :
    (mapE f l).map (List.map proj) = (mapE g l).map (List.map proj) := by
  induction l with
  | nil => rfl
  | cons x xs ih =>
    have hx := hfg x
    rcases hfx : f x with _ | y <;> rcases hgx : g x with _ | y2
    · simp [mapE, hfx, hgx, Bind.bind, Except.bind]
    · rw [hfx, hgx] at hx
      simp [Except.map] at hx
    · rw [hfx, hgx] at hx
      simp [Except.map] at hx
    · have hy : proj y = proj y2 := by
        rw [hfx, hgx] at hx
        simpa [Except.map] using hx
      rcases hmf : mapE f xs with _ | ys <;> rcases hmg : mapE g xs with _ | ys2
      · simp [mapE, hfx, hgx, hmf, hmg, Bind.bind, Except.bind]
      · rw [hmf, hmg] at ih
        simp [Except.map] at ih
      · rw [hmf, hmg] at ih
        simp [Except.map] at ih
      · have hys : ys.map proj = ys2.map proj := by
          rw [hmf, hmg] at ih
          simpa [Except.map] using ih
        simp [mapE, hfx, hgx, hmf, hmg, Bind.bind, Except.bind, Except.map, pure,
          Except.pure, hy, hys]

/-- The `part_000` schedule normalizer depends on the ambient locale/timezone
formatters only through the per-entry `date`/`time` fields. -/
theorem processScheduleData0_proj (apiData : Option (List P0.RawMatch0))
    (fmtD fmtT fmtD2 fmtT2 : Option String → String) :
    (P0.processScheduleData apiData fmtD fmtT).map
        (fun e => (e.competition, e.opponent, e.location, e.home))
      = (P0.processScheduleData apiData fmtD2 fmtT2).map
        (fun e => (e.competition, e.opponent, e.location, e.home)) := by
  rcases apiData with _ | l
  · rfl
  · have h := mapE_proj (P0.toSchedEntry0 fmtD fmtT) (P0.toSchedEntry0 fmtD2 fmtT2)
      (fun e => (e.competition, e.opponent, e.location, e.home))
      (toSchedEntry0_proj fmtD fmtT fmtD2 fmtT2) (l.filter P0.isGothamMatch0)
    simp only [P0.processScheduleData]
    rcases h1 : mapE (P0.toSchedEntry0 fmtD fmtT) (l.filter P0.isGothamMatch0) with _ | es <;>
      rcases h2 : mapE (P0.toSchedEntry0 fmtD2 fmtT2) (l.filter P0.isGothamMatch0) with _ | es2 <;>
        rw [h1, h2] at h <;>
          first
            | rfl
            | (simpa [Except.map] using h)

/-- C9 (amended): the two ambient-dependent normalizers confine their ambient
input to the date fields.  The news normalizer depends on the ambient clock
ONLY through the per-item `date` field — projecting the date away, its output
is determined by the input alone; likewise the `part_000` schedule normalizer
depends on the ambient locale/timezone date-time formatters only through its
per-entry `date`/`time` fields. -/
theorem C9_amended_clock_only_date (searchData : Option (List V1.Article)) (d d' : String) :
    ((V1.processNewsData searchData d).map (fun n => (n.source, n.title, n.snippet, n.url))
      = (V1.processNewsData searchData d').map (fun n => (n.source, n.title, n.snippet, n.url)))
    ∧ (∀ (apiData : Option (List P0.RawMatch0)) (fmtD fmtT fmtD2 fmtT2 : Option String → String),
        (P0.processScheduleData apiData fmtD fmtT).map
            (fun e => (e.competition, e.opponent, e.location, e.home))
          = (P0.processScheduleData apiData fmtD2 fmtT2).map
            (fun e => (e.competition, e.opponent, e.location, e.home))) := by
  constructor
  · cases searchData with
    | none => rfl
    | some articles =>
      rw [processNewsData_eq_map, processNewsData_eq_map]
      simp [List.map_map]
  · exact fun apiData fmtD fmtT fmtD2 fmtT2 =>
      processScheduleData0_proj apiData fmtD fmtT fmtD2 fmtT2

set_option pp.maxSteps 10000 in
example (rs : List V1.StatsResp) (ps : V1.ProcessedStats)
    (h : V1.processStatsData rs = .ok ps) : True := by
  simp only [V1.processStatsData] at h
  trivial

theorem bindE_ok {α β : Type} {e : Except Unit α} {f : α → Except Unit β} {b : β}
    (h : e.bind f = .ok b) : ∃ a, e = .ok a ∧ f a = .ok b := by
  cases e with
  | error u => simp [Except.bind] at h
  | ok a => exact ⟨a, rfl, by simpa [Except.bind] using h⟩

theorem standardBlock_pk (d : Option V1.StatsDoc) (s : V1.ProcessedStats) :
    (V1.standardBlock d s).penaltyKickPercentage = s.penaltyKickPercentage := by
  unfold V1.standardBlock
  split <;> rfl

theorem standardBlock_pa (d : Option V1.StatsDoc) (s : V1.ProcessedStats) :
    (V1.standardBlock d s).passingAccuracy = s.passingAccuracy := by
  unfold V1.standardBlock
  split <;> rfl

theorem defendingBlock_pk (d : Option V1.StatsDoc) (s : V1.ProcessedStats) :
    (V1.defendingBlock d s).penaltyKickPercentage = s.penaltyKickPercentage := by
  unfold V1.defendingBlock
  split <;> rfl

theorem defendingBlock_pa (d : Option V1.StatsDoc) (s : V1.ProcessedStats) :
    (V1.defendingBlock d s).passingAccuracy = s.passingAccuracy := by
  unfold V1.defendingBlock
  split <;> rfl

theorem goalkeepingBlock_pk (d : Option V1.StatsDoc) (s ps : V1.ProcessedStats)
    (h : V1.goalkeepingBlock d s = .ok ps) :
    ps.penaltyKickPercentage = s.penaltyKickPercentage := by
  unfold V1.goalkeepingBlock at h
  repeat' split at h
  all_goals first
    | (exact absurd h (by simp))
    | (injection h with h'; subst h'; rfl)

theorem goalkeepingBlock_pa (d : Option V1.StatsDoc) (s ps : V1.ProcessedStats)
    (h : V1.goalkeepingBlock d s = .ok ps) :
    ps.passingAccuracy = s.passingAccuracy := by
  unfold V1.goalkeepingBlock at h
  repeat' split at h
  all_goals first
    | (exact absurd h (by simp))
    | (injection h with h'; subst h'; rfl)

theorem passingBlock_pk (d : Option V1.StatsDoc) (s s' : V1.ProcessedStats)
    (h : V1.passingBlock d s = .ok s') :
    s'.penaltyKickPercentage = s.penaltyKickPercentage := by
  simp only [V1.passingBlock] at h
  repeat' split at h
  all_goals first
    | (exact absurd h (by simp))
    | (injection h with h'; subst h'; rfl)

theorem shootingBlock_pa (d : Option V1.StatsDoc) (s s' : V1.ProcessedStats)
    (h : V1.shootingBlock d s = .ok s') :
    s'.passingAccuracy = s.passingAccuracy := by
  simp only [V1.shootingBlock] at h
  repeat' split at h
  all_goals first
    | (exact absurd h (by simp))
    | (injection h with h'; subst h'; rfl)

theorem shootingBlock_pk_val (d : Option V1.StatsDoc) (s s' : V1.ProcessedStats)
    (sa sg : V1.NamedStat) (ta tg : V1.TeamVal) (a g : Rat)
    (h : V1.shootingBlock d s = .ok s')
    (h1 : V1.getStat d "penaltyKickAttempts" = some sa)
    (h2 : V1.getStat d "penaltyKickGoals" = some sg)
    (h3 : sa.team = some ta) (h4 : ta.value = some a) (h5 : a > 0)
    (h6 : sg.team = some tg) (h7 : tg.value = some g) :
    s'.penaltyKickPercentage = some ⟨some (.jnum (g / a * 100))⟩ := by
  simp only [V1.shootingBlock, h1, h2, h3, h4, h6, h7] at h
  rw [if_pos h5] at h
  injection h with h'
  subst h'
  rfl

theorem shootingBlock_pk_skip (d : Option V1.StatsDoc) (s s' : V1.ProcessedStats)
    (h : V1.shootingBlock d s = .ok s')
    (hmiss : V1.getStat d "penaltyKickAttempts" = none
      ∨ V1.getStat d "penaltyKickGoals" = none
      ∨ (∃ sa ta, V1.getStat d "penaltyKickAttempts" = some sa
          ∧ sa.team = some ta ∧ ta.value = some 0)) :
    s'.penaltyKickPercentage = s.penaltyKickPercentage := by
  rcases hmiss with h1 | h1 | ⟨sa, ta, h1, h3, h4⟩
  · simp only [V1.shootingBlock, h1] at h
    injection h with h'
    subst h'
    rfl
  · rcases hx : V1.getStat d "penaltyKickAttempts" with _ | sa <;>
      simp only [V1.shootingBlock, hx, h1] at h <;>
      (injection h with h'; subst h'; rfl)
  · rcases hy : V1.getStat d "penaltyKickGoals" with _ | sg
    · simp only [V1.shootingBlock, h1, hy] at h
      injection h with h'
      subst h'
      rfl
    · simp only [V1.shootingBlock, h1, hy, h3, h4] at h
      rw [if_neg (by norm_num)] at h
      injection h with h'
      subst h'
      rfl

theorem passingBlock_pa_val (d : Option V1.StatsDoc) (s s' : V1.ProcessedStats)
    (sa sg : V1.NamedStat) (ta tg : V1.TeamVal) (a g : Rat)
    (h : V1.passingBlock d s = .ok s')
    (h1 : V1.getStat d "successfulPasses" = some sa)
    (h2 : V1.getStat d "passesAttempted" = some sg)
    (h3 : sg.team = some ta) (h4 : ta.value = some a) (h5 : a > 0)
    (h6 : sa.team = some tg) (h7 : tg.value = some g) :
    s'.passingAccuracy = some ⟨some (.jnum (g / a * 100))⟩ := by
  simp only [V1.passingBlock, h1, h2, h3, h4, h6, h7] at h
  rw [if_pos h5] at h
  injection h with h'
  subst h'
  rfl

theorem passingBlock_pa_skip (d : Option V1.StatsDoc) (s s' : V1.ProcessedStats)
    (h : V1.passingBlock d s = .ok s')
    (hmiss : V1.getStat d "successfulPasses" = none
      ∨ V1.getStat d "passesAttempted" = none
      ∨ (∃ sg ta, V1.getStat d "passesAttempted" = some sg
          ∧ sg.team = some ta ∧ ta.value = some 0)) :
    s'.passingAccuracy = s.passingAccuracy := by
  rcases hmiss with h1 | h1 | ⟨sg, ta, h1, h3, h4⟩
  · simp only [V1.passingBlock, h1] at h
    injection h with h'
    subst h'
    rfl
  · rcases hx : V1.getStat d "successfulPasses" with _ | sa <;>
      simp only [V1.passingBlock, hx, h1] at h <;>
      (injection h with h'; subst h'; rfl)
  · rcases hy : V1.getStat d "successfulPasses" with _ | sa
    · simp only [V1.passingBlock, hy] at h
      injection h with h'
      subst h'
      rfl
    · simp only [V1.passingBlock, hy, h1, h3, h4] at h
      rw [if_neg (by norm_num)] at h
      injection h with h'
      subst h'
      rfl

theorem passStep_pk (c : Prop) [Decidable c] (pd : Option V1.StatsDoc)
    (s2 s3 : V1.ProcessedStats)
    (h : (if c then V1.passingBlock pd s2 else pure s2) = .ok s3) :
    s3.penaltyKickPercentage = s2.penaltyKickPercentage := by
  split at h
  · exact passingBlock_pk pd s2 s3 h
  · injection h with h'
    subst h'
    rfl

theorem shootStep_pa (c : Prop) [Decidable c] (sd : Option V1.StatsDoc)
    (s1 s2 : V1.ProcessedStats)
    (h : (if c then V1.shootingBlock sd s1 else pure s1) = .ok s2) :
    s2.passingAccuracy = s1.passingAccuracy := by
  split at h
  · exact shootingBlock_pa sd s1 s2 h
  · injection h with h'
    subst h'
    rfl

/-- C5: in the multi-category stats normalizer, the derived penalty-kick
percentage (resp. passing accuracy) equals numerator/denominator x 100
whenever both constituent stats are present and the team-level denominator is
positive, and the field is omitted entirely when the denominator is 0 or
either constituent stat is missing — never a division by zero. -/
theorem C5_percentage_guard (rs : List V1.StatsResp) (ps : V1.ProcessedStats)
    (h : V1.processStatsData rs = .ok ps) :
    ((∀ sa sg ta tg a g,
        V1.getStat (V1.findCat rs "shooting") "penaltyKickAttempts" = some sa →
        V1.getStat (V1.findCat rs "shooting") "penaltyKickGoals" = some sg →
        sa.team = some ta → ta.value = some a → a > 0 →
        sg.team = some tg → tg.value = some g →
        ps.penaltyKickPercentage = some ⟨some (.jnum (g / a * 100))⟩)
      ∧ (V1.getStat (V1.findCat rs "shooting") "penaltyKickAttempts" = none
          ∨ V1.getStat (V1.findCat rs "shooting") "penaltyKickGoals" = none
          ∨ (∃ sa ta, V1.getStat (V1.findCat rs "shooting") "penaltyKickAttempts" = some sa
              ∧ sa.team = some ta ∧ ta.value = some 0) →
          ps.penaltyKickPercentage = none))
    ∧ ((∀ sa sg ta tg a g,
        V1.getStat (V1.findCat rs "passing") "successfulPasses" = some sa →
        V1.getStat (V1.findCat rs "passing") "passesAttempted" = some sg →
        sg.team = some ta → ta.value = some a → a > 0 →
        sa.team = some tg → tg.value = some g →
        ps.passingAccuracy = some ⟨some (.jnum (g / a * 100))⟩)
      ∧ (V1.getStat (V1.findCat rs "passing") "successfulPasses" = none
          ∨ V1.getStat (V1.findCat rs "passing") "passesAttempted" = none
          ∨ (∃ sg ta, V1.getStat (V1.findCat rs "passing") "passesAttempted" = some sg
              ∧ sg.team = some ta ∧ ta.value = some 0) →
          ps.passingAccuracy = none)) := by
  simp only [V1.processStatsData] at h
  obtain ⟨s2, hs2, h⟩ := bindE_ok h
  obtain ⟨s3, hs3, h⟩ := bindE_ok h
  have hpk3 : ps.penaltyKickPercentage = s3.penaltyKickPercentage := by
    rw [goalkeepingBlock_pk _ _ _ h, defendingBlock_pk]
  have hpa3 : ps.passingAccuracy = s3.passingAccuracy := by
    rw [goalkeepingBlock_pa _ _ _ h, defendingBlock_pa]
  have hpk2 : s3.penaltyKickPercentage = s2.penaltyKickPercentage := passStep_pk _ _ _ _ hs3
  have hpa2 : s2.passingAccuracy
      = (V1.standardBlock (V1.findCat rs "standard") {}).passingAccuracy :=
    shootStep_pa _ _ _ _ hs2
  refine ⟨⟨?_, ?_⟩, ?_, ?_⟩
  · intro sa sg ta tg a g h1 h2 h3 h4 h5 h6 h7
    have hc : (V1.findCat rs "shooting").isSome = true := by
      rcases hd : V1.findCat rs "shooting" with _ | d
      · rw [hd] at h1
        exact absurd h1 (by simp [V1.getStat])
      · rfl
    rw [if_pos hc] at hs2
    rw [hpk3, hpk2, shootingBlock_pk_val _ _ _ sa sg ta tg a g hs2 h1 h2 h3 h4 h5 h6 h7]
  · intro hmiss
    rw [hpk3, hpk2]
    by_cases hc : (V1.findCat rs "shooting").isSome = true
    · rw [if_pos hc] at hs2
      rw [shootingBlock_pk_skip _ _ _ hs2 hmiss, standardBlock_pk]
    · rw [if_neg hc] at hs2
      injection hs2 with h'
      subst h'
      rw [standardBlock_pk]
  · intro sa sg ta tg a g h1 h2 h3 h4 h5 h6 h7
    have hc : (V1.findCat rs "passing").isSome = true := by
      rcases hd : V1.findCat rs "passing" with _ | d
      · rw [hd] at h1
        exact absurd h1 (by simp [V1.getStat])
      · rfl
    rw [if_pos hc] at hs3
    rw [hpa3, passingBlock_pa_val _ _ _ sa sg ta tg a g hs3 h1 h2 h3 h4 h5 h6 h7]
  · intro hmiss
    rw [hpa3]
    by_cases hc : (V1.findCat rs "passing").isSome = true
    · rw [if_pos hc] at hs3
      rw [passingBlock_pa_skip _ _ _ hs3 hmiss, hpa2, standardBlock_pa]
    · rw [if_neg hc] at hs3
      injection hs3 with h'
      subst h'
      rw [hpa2, standardBlock_pa]

theorem handlerV1_roster (o : V1.Outcomes) (today : String) :
    jGet (V1.handler o today).2 "roster"
      = some (.jarr ((V1.fetchData o.roster V1.processNWSLRosterData List.isEmpty
          V1.fallbackRoster).map V1.renderRosterEntry)) := rfl

theorem handlerV1_schedule (o : V1.Outcomes) (today : String) :
    jGet (V1.handler o today).2 "schedule"
      = some (.jarr ((V1.fetchData o.schedule V1.processScheduleData List.isEmpty
          V1.fallbackSchedule).map V1.renderSchedEntry)) := rfl

theorem handlerV1_stats (o : V1.Outcomes) (today : String) :
    jGet (V1.handler o today).2 "stats"
      = some (V1.renderStats (V1.fetchAllStats o.stats)) := rfl

theorem handlerV1_standings (o : V1.Outcomes) (today : String) :
    jGet (V1.handler o today).2 "standings"
      = some (V1.renderStandings (V1.fetchData o.standings V1.processStandingsData
          Option.isNone V1.fallbackStandings)) := rfl

theorem handlerV1_news (o : V1.Outcomes) (today : String) :
    jGet (V1.handler o today).2 "news"
      = some (.jarr ((V1.fetchLiveNews o.news today).map V1.renderNewsItem)) := rfl

theorem handlerV1_social (o : V1.Outcomes) (today : String) :
    jGet (V1.handler o today).2 "social" = some (.jarr V1.fallbackSocial) := rfl

theorem fetchData_cases {α γ : Type} (out : Upstream α) (proc : α → Except Unit γ)
    (isE : γ → Bool) (fb : γ) :
    V1.fetchData out proc isE fb = fb
    ∨ ∃ a g, out = .decoded a ∧ proc a = .ok g ∧ isE g = false
        ∧ V1.fetchData out proc isE fb = g := by
  cases out with
  | failed => exact Or.inl rfl
  | badBody => exact Or.inl rfl
  | decoded a =>
    rcases hp : proc a with e | g
    · left
      simp [V1.fetchData, hp]
    · by_cases he : isE g = true
      · left
        simp [V1.fetchData, hp, he]
      · rw [Bool.not_eq_true] at he
        right
        exact ⟨a, g, rfl, hp, he, by simp [V1.fetchData, hp, he]⟩

theorem fetchAllStats_cases (out : Upstream (List V1.StatsResp)) :
    V1.fetchAllStats out = V1.fallbackStats
    ∨ ∃ p ps, out = .decoded p ∧ V1.processStatsData p = .ok ps
        ∧ V1.fetchAllStats out = ps := by
  cases out with
  | failed => exact Or.inl rfl
  | badBody => exact Or.inl rfl
  | decoded p =>
    rcases hp : V1.processStatsData p with e | ps
    · left
      simp [V1.fetchAllStats, hp]
    · right
      exact ⟨p, ps, rfl, hp, by simp [V1.fetchAllStats, hp]⟩

theorem fetchLiveNews_cases (out : Upstream (List V1.Article)) (today : String) :
    V1.fetchLiveNews out today = V1.fallbackNews
    ∨ ∃ p, out = .decoded p ∧ V1.processNewsData (some p) today ≠ []
        ∧ V1.fetchLiveNews out today = V1.processNewsData (some p) today := by
  cases out with
  | failed => exact Or.inl rfl
  | badBody => exact Or.inl rfl
  | decoded p =>
    by_cases he : (V1.processNewsData (some p) today).isEmpty = true
    · left
      simp [V1.fetchLiveNews, he]
    · rw [Bool.not_eq_true] at he
      right
      refine ⟨p, rfl, ?_, by simp [V1.fetchLiveNews, he]⟩
      intro hh
      rw [hh] at he
      exact absurd he (by simp)

theorem isEmpty_false_of_ne_nil {α : Type} (l : List α) (h : l ≠ []) :
    l.isEmpty = false := by
  cases l with
  | nil => exact absurd rfl h
  | cons a tl => rfl

/-- C1 (amended): for every combination of upstream outcomes, the
first-revision handler returns status 200 and a body in which each of the six
configured keys is present and non-null, bound either to live normalized data
or to that category's fallback snapshot.  (The claim's extension to the
`part_000` handler is refuted by the counterexample: there a normalizer-EMPTY
standings result passes through as `null`.) -/
theorem C1_amended_always_present (o : V1.Outcomes) (today : String) :
    (V1.handler o today).1 = 200
    ∧ (∀ k ∈ ["roster", "schedule", "stats", "standings", "news", "social"],
        ∃ v, jGet (V1.handler o today).2 k = some v ∧ v.isNull = false)
    ∧ (jGet (V1.handler o today).2 "roster"
          = some (.jarr (V1.fallbackRoster.map V1.renderRosterEntry))
        ∨ ∃ payload live, o.roster = .decoded payload
            ∧ V1.processNWSLRosterData payload = .ok live ∧ live.isEmpty = false
            ∧ jGet (V1.handler o today).2 "roster"
                = some (.jarr (live.map V1.renderRosterEntry)))
    ∧ (jGet (V1.handler o today).2 "schedule"
          = some (.jarr (V1.fallbackSchedule.map V1.renderSchedEntry))
        ∨ ∃ payload live, o.schedule = .decoded payload
            ∧ V1.processScheduleData payload = .ok live ∧ live.isEmpty = false
            ∧ jGet (V1.handler o today).2 "schedule"
                = some (.jarr (live.map V1.renderSchedEntry)))
    ∧ (jGet (V1.handler o today).2 "stats" = some (V1.renderStats V1.fallbackStats)
        ∨ ∃ payload ps, o.stats = .decoded payload
            ∧ V1.processStatsData payload = .ok ps
            ∧ jGet (V1.handler o today).2 "stats" = some (V1.renderStats ps))
    ∧ (jGet (V1.handler o today).2 "standings"
          = some (V1.renderStandings V1.fallbackStandings)
        ∨ ∃ payload r, o.standings = .decoded payload
            ∧ V1.processStandingsData payload = .ok (some r)
            ∧ jGet (V1.handler o today).2 "standings" = some (V1.renderStandingsRec r))
    ∧ (jGet (V1.handler o today).2 "news"
          = some (.jarr (V1.fallbackNews.map V1.renderNewsItem))
        ∨ ∃ payload, o.news = .decoded payload
            ∧ V1.processNewsData (some payload) today ≠ []
            ∧ jGet (V1.handler o today).2 "news"
                = some (.jarr ((V1.processNewsData (some payload) today).map V1.renderNewsItem)))
    ∧ jGet (V1.handler o today).2 "social" = some (.jarr V1.fallbackSocial) := by
  have hstandNN : ∃ r, V1.fetchData o.standings V1.processStandingsData Option.isNone
      V1.fallbackStandings = some r := by
    rcases fetchData_cases o.standings V1.processStandingsData Option.isNone
        V1.fallbackStandings with hfb | ⟨a, g, _, _, hne, hval⟩
    · exact ⟨_, hfb⟩
    · rcases g with _ | r
      · exact absurd hne (by simp)
      · exact ⟨r, hval⟩
  refine ⟨rfl, ?_, ?_, ?_, ?_, ?_, ?_, rfl⟩
  · intro k hk
    simp only [List.mem_cons, List.not_mem_nil, or_false] at hk
    rcases hk with h | h | h | h | h | h <;> subst h
    · exact ⟨_, handlerV1_roster o today, rfl⟩
    · exact ⟨_, handlerV1_schedule o today, rfl⟩
    · exact ⟨_, handlerV1_stats o today, rfl⟩
    · obtain ⟨r, hr⟩ := hstandNN
      refine ⟨_, handlerV1_standings o today, ?_⟩
      rw [hr]
      rfl
    · exact ⟨_, handlerV1_news o today, rfl⟩
    · exact ⟨_, handlerV1_social o today, rfl⟩
  · rcases fetchData_cases o.roster V1.processNWSLRosterData List.isEmpty
        V1.fallbackRoster with hfb | ⟨a, g, hdec, hok, hne, hval⟩
    · left
      rw [handlerV1_roster, hfb]
    · right
      exact ⟨a, g, hdec, hok, hne, by rw [handlerV1_roster, hval]⟩
  · rcases fetchData_cases o.schedule V1.processScheduleData List.isEmpty
        V1.fallbackSchedule with hfb | ⟨a, g, hdec, hok, hne, hval⟩
    · left
      rw [handlerV1_schedule, hfb]
    · right
      exact ⟨a, g, hdec, hok, hne, by rw [handlerV1_schedule, hval]⟩
  · rcases fetchAllStats_cases o.stats with hfb | ⟨p, ps, hdec, hok, hval⟩
    · left
      rw [handlerV1_stats, hfb]
    · right
      exact ⟨p, ps, hdec, hok, by rw [handlerV1_stats, hval]⟩
  · rcases fetchData_cases o.standings V1.processStandingsData Option.isNone
        V1.fallbackStandings with hfb | ⟨a, g, hdec, hok, hne, hval⟩
    · left
      rw [handlerV1_standings, hfb]
    · rcases g with _ | r
      · exact absurd hne (by simp)
      · right
        exact ⟨a, r, hdec, hok, by rw [handlerV1_standings, hval]; rfl⟩
  · rcases fetchLiveNews_cases o.news today with hfb | ⟨p, hdec, hne, hval⟩
    · left
      rw [handlerV1_news, hfb]
    · right
      exact ⟨p, hdec, hne, by rw [handlerV1_news, hval]⟩

/-- A run of the `part_000` handler in which every other source fails but the
standings source decodes to a table without the configured team's row. -/
def standingsRowMissingRun : P0.Outcomes0 :=
  { enrichment := [], stats := .failed,
    standings := .decoded (some [{ teams := some [] }]),
    schedule := .failed, roster := .failed }

/-- C1 counterexample: in the `part_000` handler (whose emptiness check is
commented out), a standings payload without the configured team's row yields
a body whose `standings` key is bound to `null` — present but NOT non-null
and NOT the fallback snapshot, refuting the claim for that variant (the
status is still 200). -/
theorem C1_counterexample :
    (P0.handler standingsRowMissingRun (fun _ => "") (fun _ => "")).1 = 200
    ∧ jGet (P0.handler standingsRowMissingRun (fun _ => "") (fun _ => "")).2 "standings"
      = some .jnull := by
  exact ⟨rfl, rfl⟩

/-- C2: per-category failure isolation in the first-revision handler — each
category's body value depends only on that category's own upstream outcome;
a category whose fetch or normalization fails (transport error, undecodable
body, thrown normalizer, or EMPTY result) is bound exactly to its fallback
snapshot; and a category whose fetch and normalization succeed is bound to
its live normalized data. -/
theorem C2_fallback_isolation (o o' : V1.Outcomes) (today : String) :
    ((o.roster = o'.roster →
        jGet (V1.handler o today).2 "roster" = jGet (V1.handler o' today).2 "roster")
      ∧ (o.roster = .failed ∨ o.roster = .badBody
          ∨ (∃ p, o.roster = .decoded p ∧ (V1.processNWSLRosterData p = .error ()
              ∨ V1.processNWSLRosterData p = .ok [])) →
          jGet (V1.handler o today).2 "roster"
            = some (.jarr (V1.fallbackRoster.map V1.renderRosterEntry)))
      ∧ (∀ p live, o.roster = .decoded p → V1.processNWSLRosterData p = .ok live →
          live ≠ [] →
          jGet (V1.handler o today).2 "roster" = some (.jarr (live.map V1.renderRosterEntry))))
    ∧ ((o.schedule = o'.schedule →
        jGet (V1.handler o today).2 "schedule" = jGet (V1.handler o' today).2 "schedule")
      ∧ (o.schedule = .failed ∨ o.schedule = .badBody
          ∨ (∃ p, o.schedule = .decoded p ∧ (V1.processScheduleData p = .error ()
              ∨ V1.processScheduleData p = .ok [])) →
          jGet (V1.handler o today).2 "schedule"
            = some (.jarr (V1.fallbackSchedule.map V1.renderSchedEntry)))
      ∧ (∀ p live, o.schedule = .decoded p → V1.processScheduleData p = .ok live →
          live ≠ [] →
          jGet (V1.handler o today).2 "schedule"
            = some (.jarr (live.map V1.renderSchedEntry))))
    ∧ ((o.stats = o'.stats →
        jGet (V1.handler o today).2 "stats" = jGet (V1.handler o' today).2 "stats")
      ∧ (o.stats = .failed ∨ o.stats = .badBody
          ∨ (∃ p, o.stats = .decoded p ∧ V1.processStatsData p = .error ()) →
          jGet (V1.handler o today).2 "stats" = some (V1.renderStats V1.fallbackStats))
      ∧ (∀ p ps, o.stats = .decoded p → V1.processStatsData p = .ok ps →
          jGet (V1.handler o today).2 "stats" = some (V1.renderStats ps)))
    ∧ ((o.standings = o'.standings →
        jGet (V1.handler o today).2 "standings" = jGet (V1.handler o' today).2 "standings")
      ∧ (o.standings = .failed ∨ o.standings = .badBody
          ∨ (∃ p, o.standings = .decoded p ∧ (V1.processStandingsData p = .error ()
              ∨ V1.processStandingsData p = .ok none)) →
          jGet (V1.handler o today).2 "standings"
            = some (V1.renderStandings V1.fallbackStandings))
      ∧ (∀ p r, o.standings = .decoded p → V1.processStandingsData p = .ok (some r) →
          jGet (V1.handler o today).2 "standings" = some (V1.renderStandingsRec r)))
    ∧ ((o.news = o'.news →
        jGet (V1.handler o today).2 "news" = jGet (V1.handler o' today).2 "news")
      ∧ (o.news = .failed ∨ o.news = .badBody
          ∨ (∃ p, o.news = .decoded p ∧ V1.processNewsData (some p) today = []) →
          jGet (V1.handler o today).2 "news"
            = some (.jarr (V1.fallbackNews.map V1.renderNewsItem)))
      ∧ (∀ p, o.news = .decoded p → V1.processNewsData (some p) today ≠ [] →
          jGet (V1.handler o today).2 "news"
            = some (.jarr ((V1.processNewsData (some p) today).map V1.renderNewsItem)))) := by
  refine ⟨⟨?_, ?_, ?_⟩, ⟨?_, ?_, ?_⟩, ⟨?_, ?_, ?_⟩, ⟨?_, ?_, ?_⟩, ⟨?_, ?_, ?_⟩⟩
  · intro h
    rw [handlerV1_roster, handlerV1_roster, h]
  · rintro (h | h | ⟨p, hp, h | h⟩)
    · rw [handlerV1_roster, h]
      rfl
    · rw [handlerV1_roster, h]
      rfl
    · rw [handlerV1_roster, hp]
      simp [V1.fetchData, h]
    · rw [handlerV1_roster, hp]
      simp [V1.fetchData, h]
  · intro p live hdec hok hne
    rw [handlerV1_roster]
    simp [V1.fetchData, hdec, hok, isEmpty_false_of_ne_nil live hne]
  · intro h
    rw [handlerV1_schedule, handlerV1_schedule, h]
  · rintro (h | h | ⟨p, hp, h | h⟩)
    · rw [handlerV1_schedule, h]
      rfl
    · rw [handlerV1_schedule, h]
      rfl
    · rw [handlerV1_schedule, hp]
      simp [V1.fetchData, h]
    · rw [handlerV1_schedule, hp]
      simp [V1.fetchData, h]
  · intro p live hdec hok hne
    rw [handlerV1_schedule]
    simp [V1.fetchData, hdec, hok, isEmpty_false_of_ne_nil live hne]
  · intro h
    rw [handlerV1_stats, handlerV1_stats, h]
  · rintro (h | h | ⟨p, hp, h⟩)
    · rw [handlerV1_stats, h]
      rfl
    · rw [handlerV1_stats, h]
      rfl
    · rw [handlerV1_stats, hp]
      simp [V1.fetchAllStats, h]
  · intro p ps hdec hok
    rw [handlerV1_stats]
    simp [V1.fetchAllStats, hdec, hok]
  · intro h
    rw [handlerV1_standings, handlerV1_standings, h]
  · rintro (h | h | ⟨p, hp, h | h⟩)
    · rw [handlerV1_standings, h]
      rfl
    · rw [handlerV1_standings, h]
      rfl
    · rw [handlerV1_standings, hp]
      simp [V1.fetchData, h]
    · rw [handlerV1_standings, hp]
      simp [V1.fetchData, h]
  · intro p r hdec hok
    rw [handlerV1_standings]
    simp [V1.fetchData, hdec, hok]
    rfl
  · intro h
    rw [handlerV1_news, handlerV1_news, h]
  · rintro (h | h | ⟨p, hp, h⟩)
    · rw [handlerV1_news, h]
      rfl
    · rw [handlerV1_news, h]
      rfl
    · rw [handlerV1_news, hp]
      simp [V1.fetchLiveNews, h]
  · intro p hdec hne
    rw [handlerV1_news]
    simp [V1.fetchLiveNews, hdec, isEmpty_false_of_ne_nil _ hne]

/-- An aggregation run in which every upstream source fails. -/
def allFailedRun : V1.Outcomes :=
  { roster := .failed, schedule := .failed, stats := .failed,
    standings := .failed, news := .failed }

/-- C1 witness: the always-present theorem evaluated on a run where every
source fails. -/
theorem C1_witness :
    (V1.handler allFailedRun "Oct 11, 2025").1 = 200
    ∧ ∃ v, jGet (V1.handler allFailedRun "Oct 11, 2025").2 "roster" = some v
        ∧ v.isNull = false :=
  ⟨(C1_amended_always_present allFailedRun "Oct 11, 2025").1,
   (C1_amended_always_present allFailedRun "Oct 11, 2025").2.1 "roster" (by simp)⟩

/-- A decoded roster payload with one well-formed goalkeeper entry. -/
def rosterBergerItem : V1.RosterItem :=
  { person := some ⟨some "Ann-Katrin", some "Berger", some "Germany"⟩,
    position := some ⟨some "Goalkeeper"⟩, jerseyNumber := some 30 }

/-- The canonical entry the first-revision roster normalizer derives from
`rosterBergerItem`. -/
def bergerEntryV1 : V1.RosterEntry :=
  { name := "Ann-Katrin Berger", pos := "GK", num := .jnum 30,
    bio := "Goalkeeper from Germany" }

/-- A run whose roster source succeeds while every other source fails. -/
def isolationRun : V1.Outcomes :=
  { roster := .decoded (some [rosterBergerItem]), schedule := .failed,
    stats := .failed, standings := .failed, news := .failed }

/-- C2 witness: with a live roster and a failed schedule source, the schedule
is exactly the fallback and the roster is the live normalized data. -/
theorem C2_witness :
    jGet (V1.handler isolationRun "d").2 "schedule"
      = some (.jarr (V1.fallbackSchedule.map V1.renderSchedEntry))
    ∧ jGet (V1.handler isolationRun "d").2 "roster"
      = some (.jarr ([bergerEntryV1].map V1.renderRosterEntry)) :=
  ⟨(C2_fallback_isolation isolationRun isolationRun "d").2.1.2.1 (Or.inl rfl),
   (C2_fallback_isolation isolationRun isolationRun "d").1.2.2 (some [rosterBergerItem])
     [bergerEntryV1] rfl rfl (by simp)⟩

/-- An active roster entry whose name fields are missing (malformed). -/
def badPlayerEntry : P1.RawPlayer :=
  { playerStatus := some "Active", mediaFirstName := none, mediaLastName := none,
    shirtName := none, shortName := none, roleLabel := some "Defender",
    bibNumber := some 4, nationality := none }

/-- A well-formed active roster entry. -/
def goodPlayerEntry : P1.RawPlayer :=
  { playerStatus := some "Active", mediaFirstName := some "Rose",
    mediaLastName := some "Lavelle", shirtName := none, shortName := none,
    roleLabel := some "Midfielder", bibNumber := some 16,
    nationality := some "United States" }

/-- C3 witness: deleting an active entry with missing name fields from a
concrete payload leaves the roster output unchanged. -/
theorem C3_witness :
    P1.processNWSLRosterData (some [badPlayerEntry, goodPlayerEntry]) []
      = P1.processNWSLRosterData (some [goodPlayerEntry]) [] := by
  have h := (C3_amended_list_resilience []).1 [] [goodPlayerEntry] badPlayerEntry rfl
  simpa using h

/-- A standings row for the configured team that lacks the `draw` stat. -/
def drawlessRow : P1.StandTeam :=
  { teamId := some P1.GOTHAM_TEAM_ID,
    stats := some [⟨some "rank", some (.jnum 3)⟩, ⟨some "points", some (.jnum 38)⟩,
      ⟨some "win", some (.jnum 10)⟩, ⟨some "lose", some (.jnum 6)⟩] }

/-- A standings payload whose only table holds just `drawlessRow`. -/
def drawlessTable : Option (List P1.StandTable) :=
  some [{ teams := some [drawlessRow] }]

/-- C4 witness: the all-or-nothing theorem evaluated on the draw-less
table. -/
theorem C4_witness : P1.processStandingsData drawlessTable = none := by
  refine ((C4_amended_all_or_nothing drawlessTable).2 drawlessRow rfl).2
    ((drawlessRow.stats).getD []) rfl ?_
  exact Or.inr (Or.inr (Or.inr (Or.inr rfl)))

def pkAttemptsW : V1.NamedStat :=
  { name := some "penaltyKickAttempts", persons := none, team := some { value := some 4 } }

def pkGoalsW : V1.NamedStat :=
  { name := some "penaltyKickGoals", persons := none, team := some { value := some 3 } }

def passSuccW : V1.NamedStat :=
  { name := some "successfulPasses", persons := none, team := some { value := some 80 } }

def passAttW : V1.NamedStat :=
  { name := some "passesAttempted", persons := none, team := some { value := some 100 } }

/-- A decoded stats run with shooting and passing payloads. -/
def statsRunW : List V1.StatsResp :=
  [{ category := "shooting", data := some { data := some { stats := some [pkAttemptsW, pkGoalsW] } } },
   { category := "passing", data := some { data := some { stats := some [passSuccW, passAttW] } } }]

def statsRunPs : V1.ProcessedStats :=
  { shotLeaders := some [], sotLeaders := some [],
    penaltyKickPercentage := some ⟨some (.jnum (3 / 4 * 100))⟩,
    passLeaders := some [], passingAccuracy := some ⟨some (.jnum (80 / 100 * 100))⟩ }

/-- C5 witness: a concrete shooting/passing run — 3 of 4 penalty kicks gives
75, 80 of 100 passes gives 80. -/
theorem C5_witness :
    V1.processStatsData statsRunW = .ok statsRunPs
    ∧ statsRunPs.penaltyKickPercentage = some ⟨some (.jnum 75)⟩
    ∧ statsRunPs.passingAccuracy = some ⟨some (.jnum 80)⟩ := by
  have hok : V1.processStatsData statsRunW = .ok statsRunPs := rfl
  refine ⟨hok, ?_, ?_⟩
  · have h := (C5_percentage_guard statsRunW statsRunPs hok).1.1 pkAttemptsW pkGoalsW
      ⟨some 4⟩ ⟨some 3⟩ 4 3 rfl rfl rfl rfl (by norm_num) rfl rfl
    have h75 : (3 : Rat) / 4 * 100 = 75 := by norm_num
    rw [h, h75]
  · have h := (C5_percentage_guard statsRunW statsRunPs hok).2.1 passSuccW passAttW
      ⟨some 100⟩ ⟨some 80⟩ 100 80 rfl rfl rfl rfl (by norm_num) rfl rfl
    have h80 : (80 : Rat) / 100 * 100 = 80 := by norm_num
    rw [h, h80]

def akBergerPlayer : P1.RawPlayer :=
  { playerStatus := some "Active", mediaFirstName := some "Ann-Katrin",
    mediaLastName := some "Berger", shirtName := none, shortName := none,
    roleLabel := some "Attacking Midfielder", bibNumber := some 30,
    nationality := some "Germany" }

/-- C6 witness: an "Attacking Midfielder" yields position code "MF". -/
theorem C6_witness :
    ∃ e, P1.processPlayer [] akBergerPlayer = some e ∧ e.pos = "MF" := by
  obtain ⟨e, he, hmf, _⟩ := C6_role_collapsing [] akBergerPlayer "Attacking Midfielder" rfl rfl rfl
  exact ⟨e, he, hmf (Or.inl rfl)⟩

/-- An index with entries for both the jersey-name key and the last-name key,
carrying different payloads. -/
def twoKeyIdx : P1.EnrichmentIndex :=
  [("ak berger", { headshotUrl := some "H1", playerPageUrl := some "P1" }),
   ("berger", { headshotUrl := some "H2", playerPageUrl := some "P2" })]

def shirtNamePlayer : P1.RawPlayer :=
  { playerStatus := some "Active", mediaFirstName := some "Ann-Katrin",
    mediaLastName := some "Berger", shirtName := some "AK Berger", shortName := none,
    roleLabel := some "Goalkeeper", bibNumber := some 30, nationality := some "Germany" }

def shirtNameEntry : P1.RosterEntry :=
  { name := "Ann-Katrin Berger", pos := "GK", num := .jnum 30,
    bio := "Goalkeeper from Germany", headshot := some "H1", pageUrl := some "P1" }

/-- C7 witness: with both the jersey-name key and the last-name key present
in the index, the jersey-name payload wins. -/
theorem C7_witness :
    P1.processPlayer twoKeyIdx shirtNamePlayer = some shirtNameEntry
    ∧ shirtNameEntry.headshot = some "H1" ∧ shirtNameEntry.pageUrl = some "P1" := by
  obtain ⟨hc1, _, _, _⟩ := C7_enrichment_priority twoKeyIdx shirtNamePlayer shirtNameEntry rfl
  obtain ⟨hh, hp⟩ := hc1 { headshotUrl := some "H1", playerPageUrl := some "P1" }
    (by decide) rfl
  exact ⟨rfl, hh.trans rfl, hp.trans rfl⟩

def plainArticle : V1.Article :=
  { title := some "T", snippet := some "S", link := some "https://www.example.com/a" }

/-- C8 witness: a single keyword-free article is kept (length preserved) and
stamped with the supplied date. -/
theorem C8_witness :
    (V1.processNewsData (some [plainArticle]) "Oct 11, 2025").length = 1
    ∧ ∀ n ∈ V1.processNewsData (some [plainArticle]) "Oct 11, 2025",
        n.date = "Oct 11, 2025" :=
  ⟨((C8_amended_news_mapping [plainArticle] "Oct 11, 2025").1).trans rfl,
   (C8_amended_news_mapping [plainArticle] "Oct 11, 2025").2.2⟩

def bibFivePlayer : P1.RawPlayer :=
  { playerStatus := some "Active", mediaFirstName := some "Jess",
    mediaLastName := some "Carter", shirtName := none, shortName := none,
    roleLabel := some "Defender", bibNumber := some 5, nationality := some "England" }

/-- C10 witness: a truthy jersey number 5 is passed through as `num`. -/
theorem C10_witness :
    ∃ e, P1.processPlayer [] bibFivePlayer = some e ∧ e.num = .jnum 5 := by
  refine ⟨_, rfl, ?_⟩
  exact (C10_num_truthiness [] bibFivePlayer).1 5 _ rfl (by norm_num) rfl
